import Mathlib

/-!
Verification of the asynchronous action-execution pipeline of the
Transpose repository: workers (transaction, swap, wallet provisioning),
the MCP tool handlers, and the tool orchestrator, shallowly embedded as
pure Lean functions over explicit record stores.
-/

namespace Transpose

/-! ## Shared data model -/

/-- Domain record status (`status` enum column on transactions/swaps). -/
inductive Status
  | pending
  | confirmed
  | failed
deriving DecidableEq, Repr

/-- The chain enum used by the zod job schemas and entity columns. -/
def chains : List String := ["Base", "Ethereum", "Polygon", "Optimism", "Arbitrum"]

/-- Transaction `type` enum of `transactionProcessorJobSchema`. -/
def txTypes : List String := ["transfer", "swap"]

/-- ASCII hexadecimal digit test (for the uuid format model). -/
def isHexChar (c : Char) : Bool :=
  c.isDigit || ('a' ≤ c && c ≤ 'f') || ('A' ≤ c && c ≤ 'F')

/-- Split a character list on `'-'` (the groups between dashes). -/
def splitOnDash : List Char → List (List Char)
  | [] => [[]]
  | c :: rest =>
    let r := splitOnDash rest
    if c = '-' then [] :: r
    else
      match r with
      | [] => [[c]]
      | g :: gs => (c :: g) :: gs

/-- Model of zod's `z.string().uuid()` refinement: five dash-separated
groups of hexadecimal digits with lengths 8-4-4-4-12. -/
def isUuid (s : String) : Bool :=
  ((splitOnDash s.toList).map List.length == [8, 4, 4, 4, 12])
    && s.toList.all (fun c => c == '-' || isHexChar c)

/-- Model of `String.prototype.toLowerCase` (ASCII letters). -/
def strToLower (s : String) : String :=
  String.mk (s.toList.map Char.toLower)

/-- Model of `String.prototype.startsWith`. -/
def strStartsWith (s pre : String) : Bool :=
  s.toList.take pre.toList.length == pre.toList

/-- Model of `String.prototype.substring(n)`. -/
def strDrop (s : String) (n : Nat) : String :=
  String.mk (s.toList.drop n)

/-- JS falsy test for an optional string (`undefined` or `""`). -/
def jsStrFalsy : Option String → Bool
  | none => true
  | some s => s == ""

/-! ## A model of JavaScript `parseFloat`

`parseFloat` skips leading whitespace, reads an optional sign, then the
longest prefix matching `Infinity` or a decimal literal
(`digits [. digits] [e|E [sign] digits]`); it returns `NaN` (modelled as
`none`) when no digit is found. Finite values are kept in exact
scaled-decimal form; only the sign and NaN-ness of the result are
consumed by the embedded code, and decimal-to-float rounding preserves
both. -/

/-- A JavaScript number as consumed by the validation code: a finite
value, kept in the exact scaled-decimal form produced by the grammar
(`(-1)^neg * mant * 10^exp`, see `JsNum.toRat`), or an infinity.
`NaN` is `Option.none` outside. -/
inductive JsNum
  | num (neg : Bool) (mant : Nat) (exp : Int)
  | posInf
  | negInf
deriving DecidableEq, Repr

/-- Denotation of a finite JS number as an exact rational. -/
def JsNum.toRat : JsNum → ℚ
  | JsNum.num neg mant exp => (if neg then -1 else 1) * (mant : ℚ) * (10 : ℚ) ^ exp
  | JsNum.posInf => 0
  | JsNum.negInf => 0

/-- Whitespace skipped by `parseFloat` (space, tab, LF, CR, VT, FF). -/
def jsIsWhite (c : Char) : Bool :=
  c == ' ' || c == '\t' || c == '\n' || c == '\r'
    || c == Char.ofNat 11 || c == Char.ofNat 12

/-- Model of JavaScript `String.prototype.trim`: strip leading and
trailing whitespace. -/
def jsTrim (s : String) : String :=
  String.mk (((s.toList.dropWhile jsIsWhite).reverse.dropWhile jsIsWhite).reverse)

/-- Digit run to a natural number. -/
def digitsToNat (ds : List Char) : Nat :=
  ds.foldl (fun n c => n * 10 + (c.toNat - '0'.toNat)) 0

/-- Model of JavaScript `parseFloat` (`none` = `NaN`). -/
def jsParseFloat (s : String) : Option JsNum :=
  let cs := s.toList.dropWhile jsIsWhite
  let sgnNeg : Bool := match cs with
    | '-' :: _ => true
    | _ => false
  let cs := match cs with
    | '+' :: rest => rest
    | '-' :: rest => rest
    | _ => cs
  if cs.take 8 == "Infinity".toList then
    some (if sgnNeg then JsNum.negInf else JsNum.posInf)
  else
    let intDigits := cs.takeWhile Char.isDigit
    let cs1 := cs.dropWhile Char.isDigit
    let fracDigits := match cs1 with
      | '.' :: rest => rest.takeWhile Char.isDigit
      | _ => []
    let cs2 := match cs1 with
      | '.' :: rest => rest.dropWhile Char.isDigit
      | _ => cs1
    if intDigits.isEmpty && fracDigits.isEmpty then
      none
    else
      let mant : Nat := digitsToNat (intDigits ++ fracDigits)
      let exp : Int := match cs2 with
        | e :: rest =>
          if e == 'e' || e == 'E' then
            let eNeg : Bool := match rest with
              | '-' :: _ => true
              | _ => false
            let rest2 := match rest with
              | '+' :: r => r
              | '-' :: r => r
              | _ => rest
            let eds := rest2.takeWhile Char.isDigit
            if eds.isEmpty then 0
            else if eNeg then -(digitsToNat eds : Int) else (digitsToNat eds : Int)
          else 0
        | [] => 0
      some (JsNum.num sgnNeg mant (exp - (fracDigits.length : Int)))

/-- The guard `isNaN(x) || x <= 0` applied to a `parseFloat` result:
a finite `(-1)^neg * mant * 10^exp` is `≤ 0` iff the mantissa is zero or
the sign is negative (see `jsNaNorNonpos_iff_toRat_nonpos`). -/
def jsNaNorNonpos : Option JsNum → Bool
  | none => true
  | some (JsNum.num neg mant _) => mant == 0 || neg
  | some JsNum.posInf => false
  | some JsNum.negInf => true

/-! ## Transaction worker (`src/app/workers/transaction.worker.ts`)

The `Transaction` entity is projected to the columns the worker touches
(`id`, `status`, `txHash`); all other columns are carried through
`save`/`update` unchanged by the worker. The store is the `transactions`
table, first-match `findOne` semantics. The external settlement step is
the stubbed on-chain call (spec §1 treats it as an external
collaborator); its outcome is a parameter: `Except.ok hash` when it
returns a transaction hash, `Except.error msg` when it throws. -/

structure TxRecord where
  id : String
  status : Status
  txHash : String
deriving DecidableEq, Repr

/-- The `transactions` table. -/
abbrev TxStore := List TxRecord

/-- Raw (unvalidated) payload of a transaction job as it arrives from
the queue; `transactionProcessorJobSchema.parse` re-validates it. -/
structure TxJobData where
  userId : String
  transactionId : String
  chain : String
  type_ : String
  fromAddress : String
  toAddress : String
  asset : String
  amount : String
  userOp : Option String
deriving DecidableEq, Repr

/-- `transactionProcessorJobSchema.parse` succeeds: uuid-format ids,
chain and type enum membership (the remaining fields are free-form
`z.string()`). -/
def txParseOk (d : TxJobData) : Bool :=
  isUuid d.userId && isUuid d.transactionId
    && chains.contains d.chain && txTypes.contains d.type_

/-- `TransactionJobResult`. -/
structure TxJobResult where
  success : Bool
  txHash : Option String
  status : Status
  error : Option String
deriving DecidableEq, Repr

/-- Output of one `TransactionWorker.process` invocation: the returned
result, the updated `transactions` table, and whether the external
settlement step was invoked. -/
structure TxProcessOut where
  result : TxJobResult
  store : TxStore
  settleCalled : Bool
deriving Repr

/-- `repository.update(id, {status: "failed"})`: partial update of every
row whose id matches; a no-op when no row matches. -/
def txUpdateFailed (st : TxStore) (id : String) : TxStore :=
  st.map (fun r => if r.id = id then { r with status := Status.failed } else r)

/-- `repository.save(t)` for a loaded entity: replace the row(s) with
`t`'s id. -/
def txSave (st : TxStore) (t : TxRecord) : TxStore :=
  st.map (fun r => if r.id = t.id then t else r)

/-- The worker's `catch` block: set the record's status to `failed`
whenever `job.data.transactionId` is truthy, and return a failure
result carrying the thrown error's message. -/
def txCatch (st : TxStore) (tid : String) (settleCalled : Bool) (msg : String) :
    TxProcessOut :=
  { result := { success := false, txHash := none, status := Status.failed, error := some msg }
    store := if tid = "" then st else txUpdateFailed st tid
    settleCalled := settleCalled }

/-- The `transaction.txHash || "already_confirmed"` fallback. -/
def hashOrDefault (h : String) (dflt : String) : String :=
  if h = "" then dflt else h

/-- `TransactionWorker.process`, one invocation. -/
def txProcess (st : TxStore) (jd : TxJobData) (settle : Except String String) :
    TxProcessOut :=
  if txParseOk jd = false then
    -- zod parse throws (message abbreviated; no claim reads it)
    txCatch st jd.transactionId false "invalid job data"
  else
    match st.find? (fun r => r.id = jd.transactionId) with
    | none =>
      txCatch st jd.transactionId false
        ("Transaction " ++ jd.transactionId ++ " not found")
    | some t =>
      if t.status = Status.confirmed then
        { result := { success := true
                      txHash := some (hashOrDefault t.txHash "already_confirmed")
                      status := Status.confirmed, error := none }
          store := st
          settleCalled := false }
      else if t.status = Status.failed then
        txCatch st jd.transactionId false
          ("Transaction " ++ jd.transactionId ++ " already marked as failed")
      else
        match settle with
        | Except.error e => txCatch st jd.transactionId true e
        | Except.ok h =>
          { result := { success := true, txHash := some h
                        status := Status.confirmed, error := none }
            store := txSave st { t with status := Status.confirmed, txHash := h }
            settleCalled := true }

/-- A sequence of worker invocations folded over the store. -/
def txRun (st : TxStore) (runs : List (TxJobData × Except String String)) : TxStore :=
  runs.foldl (fun s p => (txProcess s p.1 p.2).store) st

/-- Status of the record with the given id (first match), if any. -/
def txStatusOf (st : TxStore) (id : String) : Option Status :=
  (st.find? (fun r => r.id = id)).map TxRecord.status

/-! ## Swap worker (`src/app/workers/swap.worker.ts`)

Same shape as the transaction worker, over the `swaps` table. The
entity is projected to the columns the worker touches (`id`, `status`,
`txHash`, `amountReceived`). The stubbed DEX settlement call's outcome
is a parameter: `Except.ok (hash, amountOut)` — the transaction hash and
the formatted output-amount string it produces — or `Except.error msg`
when it throws. -/

structure SwapRecord where
  id : String
  status : Status
  txHash : String
  amountReceived : String
deriving DecidableEq, Repr

/-- The `swaps` table. -/
abbrev SwapStore := List SwapRecord

/-- Raw (unvalidated) payload of a swap job. -/
structure SwapJobData where
  userId : String
  swapId : String
  chain : String
  fromAsset : String
  toAsset : String
  amountIn : String
  amountOutExpected : String
  protocol : Option String
  slippage : Option ℚ
  userOp : Option String
deriving DecidableEq, Repr

/-- `swapProcessorJobSchema.parse` succeeds: uuid-format ids and chain
enum membership (other fields are free-form strings, `slippage`
defaults to 0.5). -/
def swapParseOk (d : SwapJobData) : Bool :=
  isUuid d.userId && isUuid d.swapId && chains.contains d.chain

/-- `SwapJobResult`. -/
structure SwapJobResult where
  success : Bool
  txHash : Option String
  status : Status
  amountOutReceived : Option String
  actualSlippage : Option ℚ
  error : Option String
deriving DecidableEq, Repr

/-- Output of one `SwapWorker.process` invocation. -/
structure SwapProcessOut where
  result : SwapJobResult
  store : SwapStore
  settleCalled : Bool
deriving Repr

/-- `repository.update(id, {status: "failed"})` on the swaps table. -/
def swapUpdateFailed (st : SwapStore) (id : String) : SwapStore :=
  st.map (fun r => if r.id = id then { r with status := Status.failed } else r)

/-- `repository.save(s)` for a loaded swap entity. -/
def swapSave (st : SwapStore) (s : SwapRecord) : SwapStore :=
  st.map (fun r => if r.id = s.id then s else r)

/-- The swap worker's `catch` block. -/
def swapCatch (st : SwapStore) (sid : String) (settleCalled : Bool) (msg : String) :
    SwapProcessOut :=
  { result := { success := false, txHash := none, status := Status.failed
                amountOutReceived := none, actualSlippage := none, error := some msg }
    store := if sid = "" then st else swapUpdateFailed st sid
    settleCalled := settleCalled }

/-- `Math.abs(((pE - pR) / pE) * 100)` over `parseFloat` results; `none`
models the NaN/Infinity outcomes. -/
def slippagePct (expected received : String) : Option ℚ :=
  match jsParseFloat expected, jsParseFloat received with
  | some (JsNum.num en em ee), some (JsNum.num rn rm re) =>
    let pE := JsNum.toRat (JsNum.num en em ee)
    let pR := JsNum.toRat (JsNum.num rn rm re)
    if pE = 0 then none else some |(pE - pR) / pE * 100|
  | _, _ => none

/-- `SwapWorker.process`, one invocation. -/
def swapProcess (st : SwapStore) (jd : SwapJobData)
    (settle : Except String (String × String)) : SwapProcessOut :=
  if swapParseOk jd = false then
    swapCatch st jd.swapId false "invalid job data"
  else
    match st.find? (fun r => r.id = jd.swapId) with
    | none =>
      swapCatch st jd.swapId false ("Swap " ++ jd.swapId ++ " not found")
    | some sw =>
      if sw.status = Status.confirmed then
        { result := { success := true
                      txHash := some (hashOrDefault sw.txHash "already_confirmed")
                      status := Status.confirmed
                      amountOutReceived := some (hashOrDefault sw.amountReceived "0")
                      actualSlippage := some 0, error := none }
          store := st
          settleCalled := false }
      else if sw.status = Status.failed then
        swapCatch st jd.swapId false
          ("Swap " ++ jd.swapId ++ " already marked as failed")
      else if jsNaNorNonpos (jsParseFloat jd.amountIn)
          || jsNaNorNonpos (jsParseFloat jd.amountOutExpected) then
        swapCatch st jd.swapId false "Invalid swap amounts"
      else
        match settle with
        | Except.error e => swapCatch st jd.swapId true e
        | Except.ok (h, amountOut) =>
          { result := { success := true, txHash := some h
                        status := Status.confirmed
                        amountOutReceived := some amountOut
                        actualSlippage := slippagePct jd.amountOutExpected amountOut
                        error := none }
            store := swapSave st
              { sw with status := Status.confirmed, txHash := h, amountReceived := amountOut }
            settleCalled := true }

/-- A sequence of swap worker invocations folded over the store. -/
def swapRun (st : SwapStore)
    (runs : List (SwapJobData × Except String (String × String))) : SwapStore :=
  runs.foldl (fun s p => (swapProcess s p.1 p.2).store) st

/-- Status of the swap record with the given id (first match), if any. -/
def swapStatusOf (st : SwapStore) (id : String) : Option Status :=
  (st.find? (fun r => r.id = id)).map SwapRecord.status

/-! ## Wallet service and wallet provisioning worker
(`src/domain/onboarding/wallet/wallet.service.ts`,
`src/app/workers/wallet.worker.ts`)

The `Wallet` entity is projected to (`id`, `owner`, `chain`,
`smartAccountAddress`, `isPrimary`); database-generated row ids are
modelled as naturals drawn from a fresh-id counter. The external
on-chain provisioning call (`WalletService.provisionOnChain`, a stubbed
network operation) has its outcome as a parameter:
`Except.ok (address, txHash)` or `Except.error msg`. -/

structure WalletRec where
  id : Nat
  owner : String
  chain : String
  smartAccountAddress : String
  isPrimary : Bool
deriving DecidableEq, Repr

/-- The `wallets` table plus the id generator. -/
structure WalletDB where
  wallets : List WalletRec
  nextId : Nat
deriving DecidableEq, Repr

/-- The `user` table projected to the column the worker touches. -/
structure UserRec where
  id : String
  primaryWalletAddress : Option String
deriving DecidableEq, Repr

/-- The `findOne({owner, chain, isPrimary: true})` lookup at the heart
of `WalletService.findPrimaryWallet`. -/
def findPrimaryWallet (db : WalletDB) (uid chain : String) : Option WalletRec :=
  db.wallets.find? (fun w => w.owner == uid && w.chain == chain && w.isPrimary)

/-- `WalletService.findPrimaryWallet` including its guard throws. -/
def findPrimaryWalletSvc (db : WalletDB) (uid chain : String) :
    Except String (Option WalletRec) :=
  if jsTrim uid = "" then Except.error "User ID is required to find primary wallet"
  else if chain = "" then Except.error "Chain is required to find primary wallet"
  else Except.ok (findPrimaryWallet db uid chain)

/-- `WalletService.createWallet`: insert a new row (fresh id). -/
def createWallet (db : WalletDB) (uid chain addr : String) (isPrimary : Bool) :
    WalletDB × WalletRec :=
  let w : WalletRec :=
    { id := db.nextId, owner := uid, chain := chain
      smartAccountAddress := addr, isPrimary := isPrimary }
  ({ wallets := db.wallets ++ [w], nextId := db.nextId + 1 }, w)

/-- `WalletService.setPrimaryWallet`: first unset `isPrimary` on every
wallet owned by `uid` (all chains), then set the wallet with id `wid`
primary — with no check that `wid` belongs to `uid`. -/
def setPrimaryWallet (db : WalletDB) (wid : Nat) (uid : String) : WalletDB :=
  let unset := db.wallets.map (fun w =>
    if w.owner = uid then { w with isPrimary := false } else w)
  { db with wallets :=
      unset.map (fun w => if w.id = wid then { w with isPrimary := true } else w) }

/-- Raw payload of a wallet-provisioning job. -/
structure WalletJobData where
  userId : String
  chain : String
deriving DecidableEq, Repr

/-- `walletProvisionJobSchema.parse` succeeds. -/
def walletParseOk (d : WalletJobData) : Bool :=
  isUuid d.userId && chains.contains d.chain

/-- `WalletJobResult`. -/
structure WalletJobResult where
  success : Bool
  walletId : Option Nat
  address : Option String
  txHash : Option String
  error : Option String
deriving DecidableEq, Repr

/-- Wallet worker state: the wallets table and the users table. -/
structure WalletState where
  db : WalletDB
  users : List UserRec
deriving DecidableEq, Repr

/-- Output of one `WalletWorker.process` invocation. -/
structure WalletOut where
  result : WalletJobResult
  state : WalletState
  provisionCalled : Bool
deriving Repr

/-- The wallet worker's `catch` block (no database write). -/
def walletCatch (st : WalletState) (provisionCalled : Bool) (msg : String) : WalletOut :=
  { result := { success := false, walletId := none, address := none
                txHash := none, error := some msg }
    state := st
    provisionCalled := provisionCalled }

/-- `WalletWorker.process`, one invocation. -/
def walletProcess (st : WalletState) (jd : WalletJobData)
    (provision : Except String (String × String)) : WalletOut :=
  if walletParseOk jd = false then
    walletCatch st false "invalid job data"
  else
    match findPrimaryWalletSvc st.db jd.userId jd.chain with
    | Except.error e => walletCatch st false e
    | Except.ok (some w) =>
      { result := { success := true, walletId := some w.id
                    address := some w.smartAccountAddress
                    txHash := some "already_exists", error := none }
        state := st
        provisionCalled := false }
    | Except.ok none =>
      match provision with
      | Except.error e => walletCatch st true e
      | Except.ok (address, txHash) =>
        let created := createWallet st.db jd.userId jd.chain address true
        let users' := st.users.map (fun u =>
          if u.id = jd.userId then { u with primaryWalletAddress := some address } else u)
        { result := { success := true, walletId := some created.2.id
                      address := some address, txHash := some txHash, error := none }
          state := { db := created.1, users := users' }
          provisionCalled := true }

/-! ### Primary-wallet uniqueness machinery (claim about the invariant)

A provisioning job execution performs two storage events: the
existence check (`findPrimaryWallet`) and the insert (`createWallet`).
`stepTask`/`runSched` interleave those events of several jobs under an
explicit schedule; `applyWalletOp`/`runWalletOps` is the sequential
(non-interleaved) execution, together with `setPrimaryWallet` calls. -/

/-- Number of primary wallets for a (user, chain) pair. -/
def primaryCount (db : WalletDB) (uid chain : String) : Nat :=
  db.wallets.countP (fun w => w.owner == uid && w.chain == chain && w.isPrimary)

/-- The spec's invariant: at most one primary wallet per (user, chain). -/
def walletInv (db : WalletDB) : Prop :=
  ∀ uid chain, primaryCount db uid chain ≤ 1

/-- Database well-formedness: row ids are distinct and below the
fresh-id counter. -/
def walletWF (db : WalletDB) : Prop :=
  (db.wallets.map WalletRec.id).Nodup ∧ ∀ w ∈ db.wallets, w.id < db.nextId

/-- Progress of one in-flight provisioning job. -/
inductive ProvPhase
  | ready
  | checked (found : Bool)
  | finished
deriving DecidableEq, Repr

/-- One in-flight provisioning job (its payload and its progress). -/
structure ProvTask where
  user : String
  chain : String
  addr : String
  phase : ProvPhase
deriving DecidableEq, Repr

/-- One storage event of a provisioning job. -/
def stepTask (db : WalletDB) (t : ProvTask) : WalletDB × ProvTask :=
  match t.phase with
  | ProvPhase.ready =>
    (db, { t with phase := ProvPhase.checked (findPrimaryWallet db t.user t.chain).isSome })
  | ProvPhase.checked true => (db, { t with phase := ProvPhase.finished })
  | ProvPhase.checked false =>
    ((createWallet db t.user t.chain t.addr true).1, { t with phase := ProvPhase.finished })
  | ProvPhase.finished => (db, t)

/-- Run the storage events of several provisioning jobs under an
explicit interleaving schedule (list of task indices). -/
def runSched (db : WalletDB) (ts : List ProvTask) : List Nat → WalletDB × List ProvTask
  | [] => (db, ts)
  | i :: rest =>
    match ts[i]? with
    | none => runSched db ts rest
    | some t =>
      let s := stepTask db t
      runSched s.1 (ts.set i s.2) rest

/-- A sequential (non-interleaved) operation on the wallet store. -/
inductive WalletOp
  | provision (uid chain addr : String)
  | setPrimary (wid : Nat) (uid : String)
deriving DecidableEq, Repr

/-- Apply one sequential operation: a provisioning job run atomically
(check then insert), or a `setPrimaryWallet` call. -/
def applyWalletOp (db : WalletDB) : WalletOp → WalletDB
  | WalletOp.provision u c a =>
    match findPrimaryWallet db u c with
    | some _ => db
    | none => (createWallet db u c a true).1
  | WalletOp.setPrimary wid uid => setPrimaryWallet db wid uid

/-- Fold a list of sequential operations over the store. -/
def runWalletOps (db : WalletDB) (ops : List WalletOp) : WalletDB :=
  ops.foldl applyWalletOp db

/-- A `setPrimaryWallet` call names a wallet that belongs (in the given
store) to the user it is invoked for; provisioning runs are always
considered owner-consistent. -/
def opOwnerMatch (db : WalletDB) : WalletOp → Bool
  | WalletOp.provision _ _ _ => true
  | WalletOp.setPrimary wid uid =>
    db.wallets.all (fun w => !(w.id == wid) || (w.owner == uid))

/-- Every `setPrimaryWallet` call in the sequence names a wallet that
belongs (at call time) to the user it is invoked for. -/
def safeOps (db : WalletDB) : List WalletOp → Bool
  | [] => true
  | op :: ops => opOwnerMatch db op && safeOps (applyWalletOp db op) ops

/-! ## Alias service (`src/domain/alias/alias.service.ts`) -/

/-- The `aliases` entity projected to the columns the tools read. -/
structure AliasRec where
  owner : String
  label : String
  aliasAddress : String
deriving DecidableEq, Repr

/-- `AliasService.resolveAlias`: strip a leading `@`, lowercase, and
look the label up among the caller's own aliases. -/
def resolveAlias (aliases : List AliasRec) (userId : String) (alias_ : String) :
    Option String :=
  let cleanAlias :=
    if strStartsWith alias_ "@" then strToLower (strDrop alias_ 1) else strToLower alias_
  match aliases.find? (fun a => a.owner == userId && a.label == cleanAlias) with
  | none => none
  | some a => some a.aliasAddress

/-! ## MCP tool handlers and orchestrator
(`src/internal/mcp/tools.ts`, `src/internal/ochestrator/agentOchestrator.ts`)

Each tool's `execute` wraps its whole body in `try/catch` and returns a
`{success, message, data?}` object; thrown errors are converted to
`success := false` results. The account tools delegate to storage-layer
collaborators (`OnboardingService`, `AliasService.saveAlias`) whose
outcomes are parameters (`Collaborators`); the transfer/swap/balance
tools read the shared application state, and — as the `TODO` comments
in the source note — their settlement services
(`TransferService.transferToken`, `SwapService.swapToken`) only log, so
no handler writes any state. -/

structure SignupDTO where
  provider : String
  email : String
  password : Option String
  chain : String
deriving DecidableEq, Repr

structure SigninDTO where
  provider : String
  email : String
  password : Option String
deriving DecidableEq, Repr

structure CreateAliasDTO where
  alias_ : String
  address : String
  chain : Option String
deriving DecidableEq, Repr

structure ResolveAliasDTO where
  alias_ : String
deriving DecidableEq, Repr

structure TransferDTO where
  asset : String
  amount : String
  from_ : String
  to_ : String
  chain : String
deriving DecidableEq, Repr

structure SwapDTO where
  fromAsset : String
  toAsset : String
  amount : String
  protocol : Option String
  chain : String
  from_ : String
  to_ : String
deriving DecidableEq, Repr

structure BalanceCheckDTO where
  asset : String
  amount : String
  from_ : String
  to_ : String
  chain : String
deriving DecidableEq, Repr

structure PortfolioDTO where
  view : String
deriving DecidableEq, Repr

/-- The `data` object of a tool result, one shape per tool. -/
inductive ToolData
  | signupData (userId email : String) (walletJobId : Option String)
  | signinData (userId email : String) (hasWallet : Bool)
  | aliasData (aliasId label address : String)
  | resolveData (label address : String)
  | transferData (amount asset to_ chain : String)
  | swapData (fromAsset toAsset amount protocol chain : String)
  | balanceData (asset balance chain : String)
  | portfolioData (view : String)
deriving DecidableEq, Repr

/-- The `{success, message, data?}` object every tool returns. -/
structure ToolResult where
  success : Bool
  message : String
  data : Option ToolData
deriving DecidableEq, Repr

/-- Shared application state visible to the handlers. -/
structure AppState where
  aliases : List AliasRec
  transactions : TxStore
  swaps : SwapStore
  txJobs : List TxJobData
  swapJobs : List SwapJobData
deriving DecidableEq, Repr

/-- `OnboardingService.signupWithEmail` success data. -/
structure SignupOutcome where
  userId : String
  email : String
  walletProvisionJobId : Option String
deriving DecidableEq, Repr

/-- `OnboardingService.getWalletStatus` success data. -/
structure WalletStatusOutcome where
  hasWallet : Bool
deriving DecidableEq, Repr

/-- `AliasService.saveAlias` success data. -/
structure AliasSaved where
  id : String
  label : String
  aliasAddress : String
deriving DecidableEq, Repr

/-- Outcomes of the storage-layer collaborators the account tools call
(`Except.error msg` models a thrown exception with that message). -/
structure Collaborators where
  signup : Except String SignupOutcome
  signin : Except String SignupOutcome
  walletStatus : Except String WalletStatusOutcome
  saveAlias : Except String AliasSaved
deriving Repr

/-- `signupTool().execute`. -/
def signupExecute (i : SignupDTO) (co : Collaborators) : ToolResult :=
  if i.provider = "email" then
    if jsStrFalsy i.password then
      { success := false, message := "Password is required for email signup", data := none }
    else
      match co.signup with
      | Except.error e => { success := false, message := e, data := none }
      | Except.ok r =>
        { success := true
          message := "Account created successfully for " ++ i.email
            ++ ". Wallet provisioning initiated on " ++ i.chain ++ "."
          data := some (ToolData.signupData r.userId r.email r.walletProvisionJobId) }
  else
    { success := false
      message := "OAuth provider " ++ i.provider ++ " not yet implemented"
      data := none }

/-- `signinTool().execute`. -/
def signinExecute (i : SigninDTO) (co : Collaborators) : ToolResult :=
  if i.provider = "email" then
    if jsStrFalsy i.password then
      { success := false, message := "Password is required for email login", data := none }
    else
      match co.signin with
      | Except.error e => { success := false, message := e, data := none }
      | Except.ok r =>
        match co.walletStatus with
        | Except.error e => { success := false, message := e, data := none }
        | Except.ok ws =>
          { success := true
            message := "Welcome back, " ++ i.email ++ "!"
            data := some (ToolData.signinData r.userId r.email ws.hasWallet) }
  else
    { success := false
      message := "OAuth provider " ++ i.provider ++ " not yet implemented"
      data := none }

/-- `createAliasTool().execute`. -/
def createAliasExecute (i : CreateAliasDTO) (userId : Option String)
    (co : Collaborators) : ToolResult :=
  if jsStrFalsy userId then
    { success := false, message := "User must be authenticated to create alias", data := none }
  else if jsTrim i.alias_ = "" || jsTrim i.address = "" then
    { success := false, message := "Alias and address cannot be empty", data := none }
  else
    match co.saveAlias with
    | Except.error e => { success := false, message := e, data := none }
    | Except.ok a =>
      { success := true
        message := "Alias " ++ i.alias_ ++ " saved for address " ++ i.address
        data := some (ToolData.aliasData a.id a.label a.aliasAddress) }

/-- `resolveAliasTool().execute`. -/
def resolveAliasExecute (st : AppState) (i : ResolveAliasDTO)
    (userId : Option String) : ToolResult :=
  match userId with
  | none =>
    { success := false, message := "User must be authenticated to resolve alias", data := none }
  | some uid =>
    if uid = "" then
      { success := false, message := "User must be authenticated to resolve alias", data := none }
    else if jsTrim i.alias_ = "" then
      { success := false, message := "Alias cannot be empty", data := none }
    else
      match resolveAlias st.aliases uid i.alias_ with
      | none =>
        { success := false
          message := "Alias " ++ i.alias_ ++ " not found in your contacts"
          data := none }
      | some address =>
        { success := true
          message := "Resolved " ++ i.alias_ ++ " to " ++ address
          data := some (ToolData.resolveData i.alias_ address) }

/-- The success return of `transferTool().execute` (the
`TransferService.transferToken` call above it only logs). -/
def transferSuccess (i : TransferDTO) (toAddress : String) : ToolResult :=
  { success := true
    message := "Transfer initiated: " ++ i.amount ++ " " ++ i.asset ++ " to "
      ++ i.to_ ++ " on " ++ i.chain
    data := some (ToolData.transferData i.amount i.asset toAddress i.chain) }

/-- `transferTool().execute`; the handler performs no state write, so
only the result is returned (state threading is shown by `mapTool`). -/
def transferExecute (st : AppState) (i : TransferDTO) (userId : Option String) :
    ToolResult :=
  match userId with
  | none =>
    { success := false, message := "User must be authenticated to transfer", data := none }
  | some uid =>
    if uid = "" then
      { success := false, message := "User must be authenticated to transfer", data := none }
    else if jsTrim i.to_ = "" then
      { success := false, message := "Recipient address cannot be empty", data := none }
    else if jsNaNorNonpos (jsParseFloat i.amount) then
      { success := false, message := "Transfer amount must be a positive number", data := none }
    else if strStartsWith i.to_ "@" then
      match resolveAlias st.aliases uid i.to_ with
      | none =>
        { success := false, message := "Alias " ++ i.to_ ++ " not found", data := none }
      | some resolved => transferSuccess i resolved
    else transferSuccess i i.to_

/-- `swapTool().execute` (the `SwapService.swapToken` call only logs). -/
def swapExecute (i : SwapDTO) (userId : Option String) : ToolResult :=
  if jsStrFalsy userId then
    { success := false, message := "User must be authenticated to swap", data := none }
  else if jsNaNorNonpos (jsParseFloat i.amount) then
    { success := false, message := "Swap amount must be a positive number", data := none }
  else if jsTrim i.fromAsset = "" || jsTrim i.toAsset = "" then
    { success := false, message := "From and to assets cannot be empty", data := none }
  else if i.fromAsset = i.toAsset then
    { success := false, message := "Cannot swap the same asset", data := none }
  else
    { success := true
      message := "Swap initiated: " ++ i.amount ++ " " ++ i.fromAsset ++ " → "
        ++ i.toAsset ++ " on " ++ i.chain
      data := some (ToolData.swapData i.fromAsset i.toAsset i.amount
        (i.protocol.getD "default") i.chain) }

/-- `balanceCheckTool().execute`. -/
def balanceCheckExecute (i : BalanceCheckDTO) (userId : Option String) : ToolResult :=
  if jsStrFalsy userId then
    { success := false, message := "User must be authenticated to check balance", data := none }
  else
    { success := true
      message := "Balance check for " ++ i.asset ++ " on " ++ i.chain
      data := some (ToolData.balanceData i.asset "0.00" i.chain) }

/-- `portfolioTool().execute`. -/
def portfolioExecute (i : PortfolioDTO) (userId : Option String) : ToolResult :=
  if jsStrFalsy userId then
    { success := false, message := "User must be authenticated to view portfolio", data := none }
  else
    { success := true
      message := "Portfolio " ++ i.view ++ " retrieved"
      data := some (ToolData.portfolioData i.view) }

/-- `ToolInput`: the union of the eight registered action kinds, plus
`other` for a runtime input whose `action` string is not registered. -/
inductive ToolInput
  | signup (i : SignupDTO)
  | signin (i : SigninDTO)
  | create_alias (i : CreateAliasDTO)
  | resolve_alias (i : ResolveAliasDTO)
  | transfer (i : TransferDTO)
  | swap (i : SwapDTO)
  | balance_check (i : BalanceCheckDTO)
  | portfolio (i : PortfolioDTO)
  | other (action : String)
deriving DecidableEq, Repr

/-- The discriminating `action` field. -/
def ToolInput.action : ToolInput → String
  | ToolInput.signup _ => "signup"
  | ToolInput.signin _ => "signin"
  | ToolInput.create_alias _ => "create_alias"
  | ToolInput.resolve_alias _ => "resolve_alias"
  | ToolInput.transfer _ => "transfer"
  | ToolInput.swap _ => "swap"
  | ToolInput.balance_check _ => "balance_check"
  | ToolInput.portfolio _ => "portfolio"
  | ToolInput.other a => a

/-- The keys of the orchestrator's `toolRegistry`. -/
def registeredActions : List String :=
  ["signup", "signin", "create_alias", "resolve_alias",
   "transfer", "swap", "balance_check", "portfolio"]

/-- `ToolOrchestrator.mapTool`: registry lookup on `input.action`; an
unregistered action kind throws `Unknown tool action: ...`; a
registered one runs the tool's `execute` (every `execute` is total and
leaves the shared state unchanged — the handlers perform no writes). -/
def mapTool (st : AppState) (co : Collaborators) (input : ToolInput)
    (userId : Option String) : Except String (ToolResult × AppState) :=
  match input with
  | ToolInput.signup i => Except.ok (signupExecute i co, st)
  | ToolInput.signin i => Except.ok (signinExecute i co, st)
  | ToolInput.create_alias i => Except.ok (createAliasExecute i userId co, st)
  | ToolInput.resolve_alias i => Except.ok (resolveAliasExecute st i userId, st)
  | ToolInput.transfer i => Except.ok (transferExecute st i userId, st)
  | ToolInput.swap i => Except.ok (swapExecute i userId, st)
  | ToolInput.balance_check i => Except.ok (balanceCheckExecute i userId, st)
  | ToolInput.portfolio i => Except.ok (portfolioExecute i userId, st)
  | ToolInput.other a => Except.error ("Unknown tool action: " ++ a)

/-! ## Helper lemmas -/

theorem dropWhile_all_false {p : Char → Bool} :
    ∀ {l : List Char}, (∀ c ∈ l, p c = false) → l.dropWhile p = l
  | [], _ => rfl
  | a :: l, h => by
    have ha : p a = false := h a (List.mem_cons_self a l)
    simp [List.dropWhile_cons, ha]

theorem jsIsWhite_false_of_isHexChar {c : Char} (h : isHexChar c = true) :
    jsIsWhite c = false := by
  by_contra hw
  rw [Bool.not_eq_false] at hw
  unfold jsIsWhite at hw
  simp only [Bool.or_eq_true, beq_iff_eq] at hw
  rcases hw with ((((h1 | h1) | h1) | h1) | h1) | h1 <;> subst h1 <;>
    exact absurd h (by decide)

theorem jsTrim_of_no_white {s : String} (h : ∀ c ∈ s.toList, jsIsWhite c = false) :
    jsTrim s = s := by
  have h1 : s.toList.dropWhile jsIsWhite = s.toList := dropWhile_all_false h
  have h2 : s.toList.reverse.dropWhile jsIsWhite = s.toList.reverse :=
    dropWhile_all_false (fun c hc => h c (List.mem_reverse.mp hc))
  unfold jsTrim
  rw [h1, h2, List.reverse_reverse]
  cases s
  rfl

theorem isUuid_no_white {s : String} (h : isUuid s = true) :
    ∀ c ∈ s.toList, jsIsWhite c = false := by
  intro c hc
  unfold isUuid at h
  rw [Bool.and_eq_true] at h
  have := (List.all_eq_true.mp h.2) c hc
  rw [Bool.or_eq_true] at this
  rcases this with h1 | h1
  · rw [beq_iff_eq] at h1
    subst h1
    decide
  · exact jsIsWhite_false_of_isHexChar h1

theorem isUuid_ne_empty {s : String} (h : isUuid s = true) : s ≠ "" := by
  intro he
  subst he
  revert h
  decide

theorem isUuid_jsTrim_ne_empty {s : String} (h : isUuid s = true) : jsTrim s ≠ "" := by
  rw [jsTrim_of_no_white (isUuid_no_white h)]
  exact isUuid_ne_empty h

/-- The Boolean guard on a finite parse result coincides with `≤ 0` on
its rational denotation. -/
theorem jsNaNorNonpos_iff_toRat_nonpos (neg : Bool) (mant : Nat) (exp : Int) :
    jsNaNorNonpos (some (JsNum.num neg mant exp)) = true
      ↔ (JsNum.num neg mant exp).toRat ≤ 0 := by
  have h10 : (0 : ℚ) < (10 : ℚ) ^ exp := zpow_pos (by norm_num) exp
  unfold jsNaNorNonpos JsNum.toRat
  cases neg with
  | false =>
    simp only [Bool.or_false, beq_iff_eq, if_neg Bool.false_ne_true, one_mul]
    constructor
    · intro hm
      simp [hm]
    · intro h
      by_contra hm
      have hmp : (0 : ℚ) < (mant : ℚ) :=
        Nat.cast_pos.mpr (Nat.pos_of_ne_zero hm)
      nlinarith [mul_pos hmp h10]
  | true =>
    simp only [Bool.or_true, true_iff, if_true]
    have hm0 : (0 : ℚ) ≤ (mant : ℚ) := Nat.cast_nonneg mant
    nlinarith [mul_nonneg hm0 (le_of_lt h10)]

/-! ## C8 and C9: pre-enqueue validation of the settlement handlers -/

/-- C8: every `transfer`/`swap` action whose amount is non-numeric or
parses to a value `≤ 0` is rejected (`success = false`); when the guards
ahead of the amount check pass, the message is the amount-positivity
validation error; and the orchestrator returns the shared state
unchanged, so no job and no domain record is created. -/
theorem amount_positivity_rejected (st : AppState) (co : Collaborators)
    (ti : TransferDTO) (si : SwapDTO) (uid : Option String)
    (hti : jsNaNorNonpos (jsParseFloat ti.amount) = true)
    (hsi : jsNaNorNonpos (jsParseFloat si.amount) = true) :
    (transferExecute st ti uid).success = false
    ∧ (∀ u, uid = some u → u ≠ "" → jsTrim ti.to_ ≠ "" →
        transferExecute st ti uid =
          { success := false
            message := "Transfer amount must be a positive number", data := none })
    ∧ (swapExecute si uid).success = false
    ∧ (jsStrFalsy uid = false →
        swapExecute si uid =
          { success := false
            message := "Swap amount must be a positive number", data := none })
    ∧ mapTool st co (ToolInput.transfer ti) uid = Except.ok (transferExecute st ti uid, st)
    ∧ mapTool st co (ToolInput.swap si) uid = Except.ok (swapExecute si uid, st) := by
  refine ⟨?_, ?_, ?_, ?_, rfl, rfl⟩
  · cases uid with
    | none => rfl
    | some u =>
      by_cases hu : u = ""
      · simp [transferExecute, hu]
      · by_cases hto : jsTrim ti.to_ = ""
        · simp [transferExecute, hu, hto]
        · simp [transferExecute, hu, hto, hti]
  · intro u hueq hne htrim
    subst hueq
    simp [transferExecute, hne, htrim, hti]
  · by_cases hf : jsStrFalsy uid = true
    · simp [swapExecute, hf]
    · rw [Bool.not_eq_true] at hf
      simp [swapExecute, hf, hsi]
  · intro hf
    simp [swapExecute, hf, hsi]

/-- Witness for C8 at a concrete rejected transfer and swap. -/
theorem amount_positivity_rejected_witness :
    jsNaNorNonpos (jsParseFloat "-5") = true
    ∧ (transferExecute ⟨[], [], [], [], []⟩
        ⟨"ETH", "-5", "0xaaa", "0xbbb", "Base"⟩ (some "u1")).success = false
    ∧ swapExecute ⟨"USDC", "DAI", "-5", none, "Base", "0xaaa", "0xbbb"⟩ (some "u1")
        = { success := false
            message := "Swap amount must be a positive number", data := none } := by
  have h := amount_positivity_rejected ⟨[], [], [], [], []⟩
    ⟨Except.ok ⟨"u", "e", none⟩, Except.ok ⟨"u", "e", none⟩,
     Except.ok ⟨true⟩, Except.ok ⟨"a", "b", "c"⟩⟩
    ⟨"ETH", "-5", "0xaaa", "0xbbb", "Base"⟩
    ⟨"USDC", "DAI", "-5", none, "Base", "0xaaa", "0xbbb"⟩ (some "u1")
    (by decide) (by decide)
  exact ⟨by decide, h.1, h.2.2.2.1 (by decide)⟩

/-- C9: every `swap` action with `fromAsset = toAsset` is rejected
(`success = false`); when the authentication, amount, and non-emptiness
guards pass, the message is the same-asset validation error; and the
orchestrator returns the shared state unchanged, so no job and no
domain record is created. -/
theorem swap_same_asset_rejected (st : AppState) (co : Collaborators)
    (si : SwapDTO) (uid : Option String)
    (heq : si.fromAsset = si.toAsset) :
    (swapExecute si uid).success = false
    ∧ (jsStrFalsy uid = false →
        jsNaNorNonpos (jsParseFloat si.amount) = false →
        jsTrim si.fromAsset ≠ "" → jsTrim si.toAsset ≠ "" →
        swapExecute si uid =
          { success := false, message := "Cannot swap the same asset", data := none })
    ∧ mapTool st co (ToolInput.swap si) uid = Except.ok (swapExecute si uid, st) := by
  refine ⟨?_, ?_, rfl⟩
  · by_cases hf : jsStrFalsy uid = true
    · simp [swapExecute, hf]
    · rw [Bool.not_eq_true] at hf
      by_cases ha : jsNaNorNonpos (jsParseFloat si.amount) = true
      · simp [swapExecute, hf, ha]
      · rw [Bool.not_eq_true] at ha
        by_cases he1 : jsTrim si.fromAsset = ""
        · simp [swapExecute, hf, ha, he1]
        · by_cases he2 : jsTrim si.toAsset = ""
          · simp [swapExecute, hf, ha, he1, he2]
          · simp [swapExecute, hf, ha, he1, he2, heq]
  · intro hf ha he1 he2
    simp [swapExecute, hf, ha, he1, he2, heq]

/-- Witness for C9 at the spec's concrete scenario
(`swap{fromAsset:"USDC", toAsset:"USDC", amount:"10"}`). -/
theorem swap_same_asset_rejected_witness :
    swapExecute ⟨"USDC", "USDC", "10", none, "Base", "0xaaa", "0xbbb"⟩ (some "u1")
      = { success := false, message := "Cannot swap the same asset", data := none } := by
  have h := swap_same_asset_rejected ⟨[], [], [], [], []⟩
    ⟨Except.ok ⟨"u", "e", none⟩, Except.ok ⟨"u", "e", none⟩,
     Except.ok ⟨true⟩, Except.ok ⟨"a", "b", "c"⟩⟩
    ⟨"USDC", "USDC", "10", none, "Base", "0xaaa", "0xbbb"⟩ (some "u1") rfl
  exact h.2.1 (by decide) (by decide) (by decide) (by decide)

/-! ## C7: alias resolution gate of the transfer handler -/

/-- C7: for a transfer whose recipient begins with `@` (authenticated
actor, non-empty recipient, valid amount): when `resolveAlias` finds no
address for (actor, alias) the handler rejects with the alias-not-found
message and the orchestrator returns the shared state unchanged (no job
or record); when it resolves, the success payload's recipient is the
resolved address, not the alias text. -/
theorem transfer_alias_resolution_gate (st : AppState) (co : Collaborators)
    (ti : TransferDTO) (u : String) (hu : u ≠ "")
    (hat : strStartsWith ti.to_ "@" = true)
    (htrim : jsTrim ti.to_ ≠ "")
    (hamt : jsNaNorNonpos (jsParseFloat ti.amount) = false) :
    (resolveAlias st.aliases u ti.to_ = none →
      transferExecute st ti (some u) =
        { success := false, message := "Alias " ++ ti.to_ ++ " not found", data := none }
      ∧ mapTool st co (ToolInput.transfer ti) (some u) =
          Except.ok (transferExecute st ti (some u), st))
    ∧ (∀ addr, resolveAlias st.aliases u ti.to_ = some addr →
      transferExecute st ti (some u) = transferSuccess ti addr
      ∧ (transferExecute st ti (some u)).data =
          some (ToolData.transferData ti.amount ti.asset addr ti.chain)) := by
  constructor
  · intro hres
    exact ⟨by simp [transferExecute, hu, htrim, hamt, hat, hres], rfl⟩
  · intro addr hres
    have h1 : transferExecute st ti (some u) = transferSuccess ti addr := by
      simp [transferExecute, hu, htrim, hamt, hat, hres]
    exact ⟨h1, by rw [h1]; rfl⟩

/-- Witness for C7: `@bob` unregistered is rejected; `@bob` registered
to `0xb0b` produces a payload whose recipient is `0xb0b`. -/
theorem transfer_alias_resolution_gate_witness :
    transferExecute ⟨[], [], [], [], []⟩ ⟨"ETH", "5", "0xaaa", "@bob", "Base"⟩ (some "u1")
      = { success := false, message := "Alias @bob not found", data := none }
    ∧ (transferExecute ⟨[⟨"u1", "bob", "0xb0b"⟩], [], [], [], []⟩
        ⟨"ETH", "5", "0xaaa", "@bob", "Base"⟩ (some "u1")).data
      = some (ToolData.transferData "5" "ETH" "0xb0b" "Base") := by
  have hmiss := (transfer_alias_resolution_gate ⟨[], [], [], [], []⟩
    ⟨Except.ok ⟨"u", "e", none⟩, Except.ok ⟨"u", "e", none⟩,
     Except.ok ⟨true⟩, Except.ok ⟨"a", "b", "c"⟩⟩
    ⟨"ETH", "5", "0xaaa", "@bob", "Base"⟩ "u1"
    (by decide) (by decide) (by decide) (by decide)).1 (by decide)
  have hhit := ((transfer_alias_resolution_gate ⟨[⟨"u1", "bob", "0xb0b"⟩], [], [], [], []⟩
    ⟨Except.ok ⟨"u", "e", none⟩, Except.ok ⟨"u", "e", none⟩,
     Except.ok ⟨true⟩, Except.ok ⟨"a", "b", "c"⟩⟩
    ⟨"ETH", "5", "0xaaa", "@bob", "Base"⟩ "u1"
    (by decide) (by decide) (by decide) (by decide)).2 "0xb0b" (by decide)).2
  exact ⟨hmiss.1, hhit⟩

/-! ## C5: what the settlement handlers actually do -/

/-- C5 (documents the divergence from the spec): the transfer and swap
handlers perform no storage write at all — for every input, valid ones
included, the orchestrator returns the shared state unchanged, so no
Domain State Record with status `pending` is created and no job is
enqueued (`TransferService.transferToken` / `SwapService.swapToken`
only log; `TODO: Create transaction record and enqueue job` in the
source). The final conjuncts evaluate a fully valid transfer and swap:
the handler reports success yet nothing is persisted. -/
theorem transfer_swap_handlers_create_nothing (st : AppState) (co : Collaborators)
    (ti : TransferDTO) (si : SwapDTO) (uid : Option String) :
    mapTool st co (ToolInput.transfer ti) uid = Except.ok (transferExecute st ti uid, st)
    ∧ mapTool st co (ToolInput.swap si) uid = Except.ok (swapExecute si uid, st)
    ∧ (transferExecute ⟨[], [], [], [], []⟩
        ⟨"ETH", "5", "0xaaa", "0xbbb", "Base"⟩ (some "u1")).success = true
    ∧ (swapExecute ⟨"USDC", "DAI", "5", none, "Base", "0xaaa", "0xbbb"⟩
        (some "u1")).success = true :=
  ⟨rfl, rfl, by decide, by decide⟩

/-! ## C10: totality of dispatched tools -/

/-- C10: dispatch through the orchestrator never rejects for a
registered action kind — every registered input yields a
`{success, message, data?}` result object with the state unchanged —
and only an input whose action kind is absent from the dispatch table
makes `mapTool` itself throw. The final conjunct shows a thrown
collaborator error surfacing as a `success := false` result with the
error's message. -/
theorem mapTool_total_on_registered (st : AppState) (co : Collaborators)
    (uid : Option String) (input : ToolInput) :
    (((∃ r, mapTool st co input uid = Except.ok (r, st))
        ∧ input.action ∈ registeredActions)
      ∨ (∃ a, input = ToolInput.other a
          ∧ mapTool st co input uid = Except.error ("Unknown tool action: " ++ a)))
    ∧ (∀ em ch m, signupExecute ⟨"email", em, some "pw", ch⟩
        { co with signup := Except.error m }
        = { success := false, message := m, data := none }) := by
  constructor
  · cases input with
    | signup i => exact Or.inl ⟨⟨_, rfl⟩, by simp [ToolInput.action, registeredActions]⟩
    | signin i => exact Or.inl ⟨⟨_, rfl⟩, by simp [ToolInput.action, registeredActions]⟩
    | create_alias i => exact Or.inl ⟨⟨_, rfl⟩, by simp [ToolInput.action, registeredActions]⟩
    | resolve_alias i => exact Or.inl ⟨⟨_, rfl⟩, by simp [ToolInput.action, registeredActions]⟩
    | transfer i => exact Or.inl ⟨⟨_, rfl⟩, by simp [ToolInput.action, registeredActions]⟩
    | swap i => exact Or.inl ⟨⟨_, rfl⟩, by simp [ToolInput.action, registeredActions]⟩
    | balance_check i => exact Or.inl ⟨⟨_, rfl⟩, by simp [ToolInput.action, registeredActions]⟩
    | portfolio i => exact Or.inl ⟨⟨_, rfl⟩, by simp [ToolInput.action, registeredActions]⟩
    | other a => exact Or.inr ⟨a, rfl, rfl⟩
  · intro em ch m
    simp [signupExecute, jsStrFalsy]

/-! ## C2: wallet worker absorbs redelivery via the existing-primary check -/

theorem chains_contains_ne_empty {c : String} (h : chains.contains c = true) :
    c ≠ "" := by
  intro he
  subst he
  revert h
  decide

/-- C2: for a wallet-provisioning job whose (userId, chain) pair already
has a primary wallet, `process` returns success referencing the
existing record (`txHash = "already_exists"`), does not invoke the
external provisioning operation, creates no wallet record, and leaves
the users table (cached primary address) untouched. -/
theorem walletWorker_idempotent_existing_primary
    (st : WalletState) (jd : WalletJobData) (prov : Except String (String × String))
    (hparse : walletParseOk jd = true)
    (hexist : ∃ w ∈ st.db.wallets,
      w.owner = jd.userId ∧ w.chain = jd.chain ∧ w.isPrimary = true) :
    ∃ w, findPrimaryWallet st.db jd.userId jd.chain = some w
      ∧ w ∈ st.db.wallets
      ∧ w.owner = jd.userId ∧ w.chain = jd.chain ∧ w.isPrimary = true
      ∧ walletProcess st jd prov =
          { result := { success := true, walletId := some w.id
                        address := some w.smartAccountAddress
                        txHash := some "already_exists", error := none }
            state := st
            provisionCalled := false } := by
  have hsplit : isUuid jd.userId = true ∧ chains.contains jd.chain = true := by
    simpa [walletParseOk] using hparse
  have huuid : isUuid jd.userId = true := hsplit.1
  have hchain : chains.contains jd.chain = true := hsplit.2
  have htrim : jsTrim jd.userId ≠ "" := isUuid_jsTrim_ne_empty huuid
  have hcne : jd.chain ≠ "" := chains_contains_ne_empty hchain
  have hsome : (findPrimaryWallet st.db jd.userId jd.chain).isSome := by
    unfold findPrimaryWallet
    rw [List.find?_isSome]
    obtain ⟨w, hw, h1, h2, h3⟩ := hexist
    exact ⟨w, hw, by simp [h1, h2, h3]⟩
  obtain ⟨w, hweq⟩ := Option.isSome_iff_exists.mp hsome
  have hwmem : w ∈ st.db.wallets := by
    have := hweq
    unfold findPrimaryWallet at this
    exact List.mem_of_find?_eq_some this
  have hwp : w.owner = jd.userId ∧ w.chain = jd.chain ∧ w.isPrimary = true := by
    have h := hweq
    unfold findPrimaryWallet at h
    have hp := List.find?_some h
    simp only [Bool.and_eq_true, beq_iff_eq] at hp
    exact ⟨hp.1.1, hp.1.2, hp.2⟩
  refine ⟨w, hweq, hwmem, hwp.1, hwp.2.1, hwp.2.2, ?_⟩
  unfold walletProcess findPrimaryWalletSvc
  simp [hparse, htrim, hcne, hweq]

/-- Witness for C2: a user who already has a primary Base wallet gets
the existing record back, with no provisioning call and no state
change. -/
theorem walletWorker_idempotent_existing_primary_witness :
    ∃ w, findPrimaryWallet
        ⟨[⟨7, "123e4567-e89b-12d3-a456-426614174000", "Base", "0xabc", true⟩], 8⟩
        "123e4567-e89b-12d3-a456-426614174000" "Base" = some w
      ∧ w ∈ [(⟨7, "123e4567-e89b-12d3-a456-426614174000", "Base", "0xabc", true⟩ : WalletRec)]
      ∧ w.owner = "123e4567-e89b-12d3-a456-426614174000" ∧ w.chain = "Base"
      ∧ w.isPrimary = true
      ∧ walletProcess
          ⟨⟨[⟨7, "123e4567-e89b-12d3-a456-426614174000", "Base", "0xabc", true⟩], 8⟩,
           [⟨"123e4567-e89b-12d3-a456-426614174000", some "0xabc"⟩]⟩
          ⟨"123e4567-e89b-12d3-a456-426614174000", "Base"⟩
          (Except.error "provisioning collaborator must not be called") =
          { result := { success := true, walletId := some w.id
                        address := some w.smartAccountAddress
                        txHash := some "already_exists", error := none }
            state :=
              ⟨⟨[⟨7, "123e4567-e89b-12d3-a456-426614174000", "Base", "0xabc", true⟩], 8⟩,
               [⟨"123e4567-e89b-12d3-a456-426614174000", some "0xabc"⟩]⟩
            provisionCalled := false } :=
  walletWorker_idempotent_existing_primary
    ⟨⟨[⟨7, "123e4567-e89b-12d3-a456-426614174000", "Base", "0xabc", true⟩], 8⟩,
     [⟨"123e4567-e89b-12d3-a456-426614174000", some "0xabc"⟩]⟩
    ⟨"123e4567-e89b-12d3-a456-426614174000", "Base"⟩
    (Except.error "provisioning collaborator must not be called")
    (by decide) (by decide)

/-! ## Status bookkeeping lemmas for the transaction worker -/

theorem txFind_map (st : TxStore) (f : TxRecord → TxRecord)
    (hf : ∀ r, (f r).id = r.id) (id : String) :
    (st.map f).find? (fun r => r.id = id) = (st.find? (fun r => r.id = id)).map f := by
  induction st with
  | nil => rfl
  | cons r rs ih =>
    by_cases h : r.id = id
    · have h' : (f r).id = id := by rw [hf r]; exact h
      simp [List.find?_cons, h, h']
    · have h' : ¬((f r).id = id) := by rw [hf r]; exact h
      simp [List.find?_cons, h, h', ih]

theorem txStatusOf_updateFailed (st : TxStore) (tid id : String) :
    txStatusOf (txUpdateFailed st tid) id =
      if id = tid then (txStatusOf st id).map (fun _ => Status.failed)
      else txStatusOf st id := by
  unfold txStatusOf txUpdateFailed
  rw [txFind_map st _ (fun r => by by_cases h : r.id = tid <;> simp [h]) id]
  cases hfind : st.find? (fun r => r.id = id) with
  | none => simp
  | some t =>
    have hp : t.id = id := by simpa using List.find?_some hfind
    by_cases hit : id = tid
    · subst hit
      simp [Option.map, hp]
    · have : ¬(t.id = tid) := by rw [hp]; exact hit
      simp [Option.map, this, hit]

theorem txStatusOf_save (st : TxStore) (t' : TxRecord) (id : String) :
    txStatusOf (txSave st t') id =
      if id = t'.id then (txStatusOf st id).map (fun _ => t'.status)
      else txStatusOf st id := by
  unfold txStatusOf txSave
  rw [txFind_map st _ (fun r => by by_cases h : r.id = t'.id <;> simp [h]) id]
  cases hfind : st.find? (fun r => r.id = id) with
  | none => simp
  | some t =>
    have hp : t.id = id := by simpa using List.find?_some hfind
    by_cases hit : id = t'.id
    · have : t.id = t'.id := by rw [hp]; exact hit
      simp [Option.map, this, hit]
    · have : ¬(t.id = t'.id) := by rw [hp]; exact hit
      simp [Option.map, this, hit]

theorem txStatusOf_catch (st : TxStore) (tid id msg : String) (b : Bool) :
    txStatusOf (txCatch st tid b msg).store id =
      if tid = "" then txStatusOf st id
      else if id = tid then (txStatusOf st id).map (fun _ => Status.failed)
      else txStatusOf st id := by
  unfold txCatch
  by_cases ht : tid = "" <;> simp [ht, txStatusOf_updateFailed]

/-- One `TransactionWorker.process` invocation: a `failed` record stays
`failed`; a record that is not `pending` never becomes `pending`; and,
when the payload passes schema validation, a `confirmed` record stays
`confirmed`. -/
theorem txProcess_step (st : TxStore) (jd : TxJobData) (s : Except String String)
    (id : String) :
    (txStatusOf st id = some Status.failed →
      txStatusOf (txProcess st jd s).store id = some Status.failed)
    ∧ (txStatusOf st id ≠ some Status.pending →
      txStatusOf (txProcess st jd s).store id ≠ some Status.pending)
    ∧ (txParseOk jd = true → txStatusOf st id = some Status.confirmed →
      txStatusOf (txProcess st jd s).store id = some Status.confirmed) := by
  have hcatch1 : ∀ (b : Bool) (msg : String),
      txStatusOf st id = some Status.failed →
      txStatusOf (txCatch st jd.transactionId b msg).store id = some Status.failed := by
    intro b msg hold
    rw [txStatusOf_catch]
    split_ifs with h1 h2
    · exact hold
    · rw [hold]
      rfl
    · exact hold
  have hcatch2 : ∀ (b : Bool) (msg : String),
      txStatusOf st id ≠ some Status.pending →
      txStatusOf (txCatch st jd.transactionId b msg).store id ≠ some Status.pending := by
    intro b msg hold
    rw [txStatusOf_catch]
    split_ifs with h1 h2
    · exact hold
    · cases hv : txStatusOf st id <;> simp
    · exact hold
  unfold txProcess
  by_cases hpk : txParseOk jd = false
  · rw [if_pos hpk]
    refine ⟨hcatch1 _ _, hcatch2 _ _, ?_⟩
    intro hpt
    rw [hpt] at hpk
    exact absurd hpk (by decide)
  · rw [if_neg hpk]
    cases hfind : st.find? (fun r => r.id = jd.transactionId) with
    | none =>
      have hnone : txStatusOf st jd.transactionId = none := by
        unfold txStatusOf
        rw [hfind]
        rfl
      refine ⟨hcatch1 _ _, hcatch2 _ _, ?_⟩
      intro _ hold
      rw [txStatusOf_catch]
      split_ifs with h1 h2
      · exact hold
      · rw [h2, hnone] at hold
        exact absurd hold (by simp)
      · exact hold
    | some t =>
      dsimp only
      have htid : txStatusOf st jd.transactionId = some t.status := by
        unfold txStatusOf
        rw [hfind]
        rfl
      have hpid : t.id = jd.transactionId := by
        simpa using List.find?_some hfind
      cases hstat : t.status with
      | confirmed =>
        rw [hstat] at htid
        rw [if_pos rfl]
        exact ⟨fun h => h, fun h => h, fun _ h => h⟩
      | failed =>
        rw [hstat] at htid
        rw [if_neg (by decide : ¬(Status.failed = Status.confirmed))]
        rw [if_pos rfl]
        refine ⟨hcatch1 _ _, hcatch2 _ _, ?_⟩
        intro _ hold
        rw [txStatusOf_catch]
        split_ifs with h1 h2
        · exact hold
        · rw [h2, htid] at hold
          exact absurd hold (by decide)
        · exact hold
      | pending =>
        rw [hstat] at htid
        rw [if_neg (by decide : ¬(Status.pending = Status.confirmed))]
        rw [if_neg (by decide : ¬(Status.pending = Status.failed))]
        cases s with
        | error e =>
          refine ⟨hcatch1 _ _, hcatch2 _ _, ?_⟩
          intro _ hold
          rw [txStatusOf_catch]
          split_ifs with h1 h2
          · exact hold
          · rw [h2, htid] at hold
            exact absurd hold (by decide)
          · exact hold
        | ok h =>
          have hsv := txStatusOf_save st { t with status := Status.confirmed, txHash := h } id
          refine ⟨?_, ?_, ?_⟩
          · intro hold
            rw [hsv]
            split_ifs with h1
            · rw [show ({ t with status := Status.confirmed, txHash := h } : TxRecord).id = t.id from rfl, hpid] at h1
              rw [h1, htid] at hold
              exact absurd hold (by decide)
            · exact hold
          · intro hold
            rw [hsv]
            split_ifs with h1
            · cases hv : txStatusOf st id <;> simp
            · exact hold
          · intro _ hold
            rw [hsv]
            split_ifs with h1
            · rw [show ({ t with status := Status.confirmed, txHash := h } : TxRecord).id = t.id from rfl, hpid] at h1
              rw [h1, htid] at hold
              exact absurd hold (by decide)
            · exact hold

/-! ## Status bookkeeping lemmas for the swap worker -/

theorem swapFind_map (st : SwapStore) (f : SwapRecord → SwapRecord)
    (hf : ∀ r, (f r).id = r.id) (id : String) :
    (st.map f).find? (fun r => r.id = id) = (st.find? (fun r => r.id = id)).map f := by
  induction st with
  | nil => rfl
  | cons r rs ih =>
    by_cases h : r.id = id
    · have h' : (f r).id = id := by rw [hf r]; exact h
      simp [List.find?_cons, h, h']
    · have h' : ¬((f r).id = id) := by rw [hf r]; exact h
      simp [List.find?_cons, h, h', ih]

theorem swapStatusOf_updateFailed (st : SwapStore) (sid id : String) :
    swapStatusOf (swapUpdateFailed st sid) id =
      if id = sid then (swapStatusOf st id).map (fun _ => Status.failed)
      else swapStatusOf st id := by
  unfold swapStatusOf swapUpdateFailed
  rw [swapFind_map st _ (fun r => by by_cases h : r.id = sid <;> simp [h]) id]
  cases hfind : st.find? (fun r => r.id = id) with
  | none => simp
  | some t =>
    have hp : t.id = id := by simpa using List.find?_some hfind
    by_cases hit : id = sid
    · subst hit
      simp [Option.map, hp]
    · have : ¬(t.id = sid) := by rw [hp]; exact hit
      simp [Option.map, this, hit]

theorem swapStatusOf_save (st : SwapStore) (t' : SwapRecord) (id : String) :
    swapStatusOf (swapSave st t') id =
      if id = t'.id then (swapStatusOf st id).map (fun _ => t'.status)
      else swapStatusOf st id := by
  unfold swapStatusOf swapSave
  rw [swapFind_map st _ (fun r => by by_cases h : r.id = t'.id <;> simp [h]) id]
  cases hfind : st.find? (fun r => r.id = id) with
  | none => simp
  | some t =>
    have hp : t.id = id := by simpa using List.find?_some hfind
    by_cases hit : id = t'.id
    · have : t.id = t'.id := by rw [hp]; exact hit
      simp [Option.map, this, hit]
    · have : ¬(t.id = t'.id) := by rw [hp]; exact hit
      simp [Option.map, this, hit]

theorem swapStatusOf_catch (st : SwapStore) (sid id msg : String) (b : Bool) :
    swapStatusOf (swapCatch st sid b msg).store id =
      if sid = "" then swapStatusOf st id
      else if id = sid then (swapStatusOf st id).map (fun _ => Status.failed)
      else swapStatusOf st id := by
  unfold swapCatch
  by_cases ht : sid = "" <;> simp [ht, swapStatusOf_updateFailed]

/-- One `SwapWorker.process` invocation: a `failed` record stays
`failed`; a record that is not `pending` never becomes `pending`; and,
when the payload passes schema validation, a `confirmed` record stays
`confirmed`. -/
theorem swapProcess_step (st : SwapStore) (jd : SwapJobData)
    (s : Except String (String × String)) (id : String) :
    (swapStatusOf st id = some Status.failed →
      swapStatusOf (swapProcess st jd s).store id = some Status.failed)
    ∧ (swapStatusOf st id ≠ some Status.pending →
      swapStatusOf (swapProcess st jd s).store id ≠ some Status.pending)
    ∧ (swapParseOk jd = true → swapStatusOf st id = some Status.confirmed →
      swapStatusOf (swapProcess st jd s).store id = some Status.confirmed) := by
  have hcatch1 : ∀ (b : Bool) (msg : String),
      swapStatusOf st id = some Status.failed →
      swapStatusOf (swapCatch st jd.swapId b msg).store id = some Status.failed := by
    intro b msg hold
    rw [swapStatusOf_catch]
    split_ifs with h1 h2
    · exact hold
    · rw [hold]
      rfl
    · exact hold
  have hcatch2 : ∀ (b : Bool) (msg : String),
      swapStatusOf st id ≠ some Status.pending →
      swapStatusOf (swapCatch st jd.swapId b msg).store id ≠ some Status.pending := by
    intro b msg hold
    rw [swapStatusOf_catch]
    split_ifs with h1 h2
    · exact hold
    · cases hv : swapStatusOf st id <;> simp
    · exact hold
  unfold swapProcess
  by_cases hpk : swapParseOk jd = false
  · rw [if_pos hpk]
    refine ⟨hcatch1 _ _, hcatch2 _ _, ?_⟩
    intro hpt
    rw [hpt] at hpk
    exact absurd hpk (by decide)
  · rw [if_neg hpk]
    cases hfind : st.find? (fun r => r.id = jd.swapId) with
    | none =>
      have hnone : swapStatusOf st jd.swapId = none := by
        unfold swapStatusOf
        rw [hfind]
        rfl
      refine ⟨hcatch1 _ _, hcatch2 _ _, ?_⟩
      intro _ hold
      rw [swapStatusOf_catch]
      split_ifs with h1 h2
      · exact hold
      · rw [h2, hnone] at hold
        exact absurd hold (by simp)
      · exact hold
    | some t =>
      dsimp only
      have htid : swapStatusOf st jd.swapId = some t.status := by
        unfold swapStatusOf
        rw [hfind]
        rfl
      have hpid : t.id = jd.swapId := by
        simpa using List.find?_some hfind
      cases hstat : t.status with
      | confirmed =>
        rw [hstat] at htid
        rw [if_pos rfl]
        exact ⟨fun h => h, fun h => h, fun _ h => h⟩
      | failed =>
        rw [hstat] at htid
        rw [if_neg (by decide : ¬(Status.failed = Status.confirmed))]
        rw [if_pos rfl]
        refine ⟨hcatch1 _ _, hcatch2 _ _, ?_⟩
        intro _ hold
        rw [swapStatusOf_catch]
        split_ifs with h1 h2
        · exact hold
        · rw [h2, htid] at hold
          exact absurd hold (by decide)
        · exact hold
      | pending =>
        rw [hstat] at htid
        rw [if_neg (by decide : ¬(Status.pending = Status.confirmed))]
        rw [if_neg (by decide : ¬(Status.pending = Status.failed))]
        by_cases hamt : (jsNaNorNonpos (jsParseFloat jd.amountIn)
            || jsNaNorNonpos (jsParseFloat jd.amountOutExpected)) = true
        · rw [if_pos hamt]
          refine ⟨hcatch1 _ _, hcatch2 _ _, ?_⟩
          intro _ hold
          rw [swapStatusOf_catch]
          split_ifs with h1 h2
          · exact hold
          · rw [h2, htid] at hold
            exact absurd hold (by decide)
          · exact hold
        · rw [if_neg hamt]
          cases s with
          | error e =>
            refine ⟨hcatch1 _ _, hcatch2 _ _, ?_⟩
            intro _ hold
            rw [swapStatusOf_catch]
            split_ifs with h1 h2
            · exact hold
            · rw [h2, htid] at hold
              exact absurd hold (by decide)
            · exact hold
          | ok pr =>
            obtain ⟨h, amountOut⟩ := pr
            dsimp only
            have hsv := swapStatusOf_save st
              { t with status := Status.confirmed, txHash := h, amountReceived := amountOut } id
            refine ⟨?_, ?_, ?_⟩
            · intro hold
              rw [hsv]
              split_ifs with h1
              · have h1' : id = jd.swapId := by
                  rw [← hpid]
                  exact h1
                rw [h1', htid] at hold
                exact absurd hold (by decide)
              · exact hold
            · intro hold
              rw [hsv]
              split_ifs with h1
              · cases hv : swapStatusOf st id <;> simp
              · exact hold
            · intro _ hold
              rw [hsv]
              split_ifs with h1
              · have h1' : id = jd.swapId := by
                  rw [← hpid]
                  exact h1
                rw [h1', htid] at hold
                exact absurd hold (by decide)
              · exact hold

/-! ## Monotone status over sequences of invocations (C1) -/

theorem txRun_monotone (st : TxStore)
    (runs : List (TxJobData × Except String String)) (id : String) :
    (txStatusOf st id = some Status.failed →
      txStatusOf (txRun st runs) id = some Status.failed)
    ∧ (txStatusOf st id ≠ some Status.pending →
      txStatusOf (txRun st runs) id ≠ some Status.pending)
    ∧ ((∀ p ∈ runs, txParseOk p.1 = true) →
      txStatusOf st id = some Status.confirmed →
      txStatusOf (txRun st runs) id = some Status.confirmed) := by
  induction runs generalizing st with
  | nil => exact ⟨fun h => h, fun h => h, fun _ h => h⟩
  | cons p rest ih =>
    have hstep := txProcess_step st p.1 p.2 id
    have ihr := ih (txProcess st p.1 p.2).store
    have hrun : txRun st (p :: rest) = txRun (txProcess st p.1 p.2).store rest := rfl
    refine ⟨?_, ?_, ?_⟩
    · intro hold
      rw [hrun]
      exact ihr.1 (hstep.1 hold)
    · intro hold
      rw [hrun]
      exact ihr.2.1 (hstep.2.1 hold)
    · intro hall hold
      rw [hrun]
      exact ihr.2.2 (fun q hq => hall q (List.mem_cons_of_mem _ hq))
        (hstep.2.2 (hall p (List.mem_cons_self _ _)) hold)

theorem swapRun_monotone (st : SwapStore)
    (runs : List (SwapJobData × Except String (String × String))) (id : String) :
    (swapStatusOf st id = some Status.failed →
      swapStatusOf (swapRun st runs) id = some Status.failed)
    ∧ (swapStatusOf st id ≠ some Status.pending →
      swapStatusOf (swapRun st runs) id ≠ some Status.pending)
    ∧ ((∀ p ∈ runs, swapParseOk p.1 = true) →
      swapStatusOf st id = some Status.confirmed →
      swapStatusOf (swapRun st runs) id = some Status.confirmed) := by
  induction runs generalizing st with
  | nil => exact ⟨fun h => h, fun h => h, fun _ h => h⟩
  | cons p rest ih =>
    have hstep := swapProcess_step st p.1 p.2 id
    have ihr := ih (swapProcess st p.1 p.2).store
    have hrun : swapRun st (p :: rest) = swapRun (swapProcess st p.1 p.2).store rest := rfl
    refine ⟨?_, ?_, ?_⟩
    · intro hold
      rw [hrun]
      exact ihr.1 (hstep.1 hold)
    · intro hold
      rw [hrun]
      exact ihr.2.1 (hstep.2.1 hold)
    · intro hall hold
      rw [hrun]
      exact ihr.2.2 (fun q hq => hall q (List.mem_cons_of_mem _ hq))
        (hstep.2.2 (hall p (List.mem_cons_self _ _)) hold)

/-- C1 (amended): across any sequence of worker invocations, for both
the transaction and the swap worker: `confirmed` and `failed` are
distinct terminal values; once a record's status leaves `pending` it
never returns to `pending`; a record in `failed` keeps that status; and
a record in `confirmed` keeps it provided every delivered payload
passes the job schema validation — the amendment forced by the
counterexample: a redelivered job whose payload fails validation flips
a `confirmed` record to `failed` through the catch-all error handler. -/
theorem worker_status_monotone :
    Status.confirmed ≠ Status.failed
    ∧ (∀ (st : TxStore) (runs : List (TxJobData × Except String String)) (id : String),
      (txStatusOf st id ≠ some Status.pending →
        txStatusOf (txRun st runs) id ≠ some Status.pending)
      ∧ (txStatusOf st id = some Status.failed →
        txStatusOf (txRun st runs) id = some Status.failed)
      ∧ ((∀ p ∈ runs, txParseOk p.1 = true) →
        txStatusOf st id = some Status.confirmed →
        txStatusOf (txRun st runs) id = some Status.confirmed))
    ∧ (∀ (st : SwapStore) (runs : List (SwapJobData × Except String (String × String)))
        (id : String),
      (swapStatusOf st id ≠ some Status.pending →
        swapStatusOf (swapRun st runs) id ≠ some Status.pending)
      ∧ (swapStatusOf st id = some Status.failed →
        swapStatusOf (swapRun st runs) id = some Status.failed)
      ∧ ((∀ p ∈ runs, swapParseOk p.1 = true) →
        swapStatusOf st id = some Status.confirmed →
        swapStatusOf (swapRun st runs) id = some Status.confirmed)) :=
  ⟨by decide,
   fun st runs id =>
     ⟨(txRun_monotone st runs id).2.1, (txRun_monotone st runs id).1,
      (txRun_monotone st runs id).2.2⟩,
   fun st runs id =>
     ⟨(swapRun_monotone st runs id).2.1, (swapRun_monotone st runs id).1,
      (swapRun_monotone st runs id).2.2⟩⟩

/-- Witness for C1 at concrete stores and valid payloads: a `failed`
transaction record stays `failed` and a `confirmed` swap record stays
`confirmed` across a redelivery. -/
theorem worker_status_monotone_witness :
    txStatusOf
      (txRun [⟨"aaaaaaaa-aaaa-aaaa-aaaa-aaaaaaaaaaaa", Status.failed, ""⟩]
        [(⟨"12345678-1234-1234-1234-123456789abc", "aaaaaaaa-aaaa-aaaa-aaaa-aaaaaaaaaaaa",
           "Base", "transfer", "0xa", "0xb", "ETH", "5", none⟩, Except.ok "0xnew")])
      "aaaaaaaa-aaaa-aaaa-aaaa-aaaaaaaaaaaa" = some Status.failed
    ∧ swapStatusOf
      (swapRun [⟨"bbbbbbbb-bbbb-bbbb-bbbb-bbbbbbbbbbbb", Status.confirmed, "0xh", "42"⟩]
        [(⟨"12345678-1234-1234-1234-123456789abc", "bbbbbbbb-bbbb-bbbb-bbbb-bbbbbbbbbbbb",
           "Base", "USDC", "DAI", "10", "42", none, none, none⟩, Except.ok ("0xn", "41"))])
      "bbbbbbbb-bbbb-bbbb-bbbb-bbbbbbbbbbbb" = some Status.confirmed := by
  have h1 := (worker_status_monotone.2.1
    [⟨"aaaaaaaa-aaaa-aaaa-aaaa-aaaaaaaaaaaa", Status.failed, ""⟩]
    [(⟨"12345678-1234-1234-1234-123456789abc", "aaaaaaaa-aaaa-aaaa-aaaa-aaaaaaaaaaaa",
       "Base", "transfer", "0xa", "0xb", "ETH", "5", none⟩, Except.ok "0xnew")]
    "aaaaaaaa-aaaa-aaaa-aaaa-aaaaaaaaaaaa").2.1 (by decide)
  have h2 := (worker_status_monotone.2.2
    [⟨"bbbbbbbb-bbbb-bbbb-bbbb-bbbbbbbbbbbb", Status.confirmed, "0xh", "42"⟩]
    [(⟨"12345678-1234-1234-1234-123456789abc", "bbbbbbbb-bbbb-bbbb-bbbb-bbbbbbbbbbbb",
       "Base", "USDC", "DAI", "10", "42", none, none, none⟩, Except.ok ("0xn", "41"))]
    "bbbbbbbb-bbbb-bbbb-bbbb-bbbbbbbbbbbb").2.2 (by decide) (by decide)
  exact ⟨h1, h2⟩

/-- C1 counterexample: the transaction worker invoked with a payload
that fails schema validation (non-uuid `userId`) but carries the id of
an already-`confirmed` record sets that record's status to `failed` —
the claim's "a record already in confirmed keeps that status for future
job attempts", as stated, is false on the code. -/
theorem confirmed_flipped_by_invalid_payload :
    txStatusOf [⟨"aaaaaaaa-1111-2222-3333-444444444444", Status.confirmed, "0xdead"⟩]
      "aaaaaaaa-1111-2222-3333-444444444444" = some Status.confirmed
    ∧ txParseOk ⟨"not-a-uuid", "aaaaaaaa-1111-2222-3333-444444444444",
        "Base", "transfer", "0xa", "0xb", "ETH", "5", none⟩ = false
    ∧ txStatusOf
      (txRun [⟨"aaaaaaaa-1111-2222-3333-444444444444", Status.confirmed, "0xdead"⟩]
        [(⟨"not-a-uuid", "aaaaaaaa-1111-2222-3333-444444444444",
           "Base", "transfer", "0xa", "0xb", "ETH", "5", none⟩, Except.ok "0xnew")])
      "aaaaaaaa-1111-2222-3333-444444444444" = some Status.failed := by
  exact ⟨by decide, by decide, by decide⟩

/-! ## Settlement is only attempted on pending records -/

theorem txProcess_settle_only_pending (st : TxStore) (jd : TxJobData)
    (s : Except String String)
    (h : (txProcess st jd s).settleCalled = true) :
    txStatusOf st jd.transactionId = some Status.pending := by
  by_cases hp : txStatusOf st jd.transactionId = some Status.pending
  · exact hp
  · exfalso
    have hoff : (txProcess st jd s).settleCalled = false := by
      unfold txProcess
      by_cases hpk : txParseOk jd = false
      · rw [if_pos hpk]
        rfl
      · rw [if_neg hpk]
        cases hfind : st.find? (fun r => r.id = jd.transactionId) with
        | none => rfl
        | some t =>
          dsimp only
          have htid : txStatusOf st jd.transactionId = some t.status := by
            unfold txStatusOf
            rw [hfind]
            rfl
          cases hstat : t.status with
          | confirmed =>
            rw [if_pos rfl]
          | failed =>
            rw [if_neg (by decide : ¬(Status.failed = Status.confirmed))]
            rw [if_pos rfl]
            rfl
          | pending => exact absurd (htid.trans (by rw [hstat])) hp
    rw [hoff] at h
    exact absurd h (by decide)

theorem swapProcess_settle_only_pending (st : SwapStore) (jd : SwapJobData)
    (s : Except String (String × String))
    (h : (swapProcess st jd s).settleCalled = true) :
    swapStatusOf st jd.swapId = some Status.pending := by
  by_cases hp : swapStatusOf st jd.swapId = some Status.pending
  · exact hp
  · exfalso
    have hoff : (swapProcess st jd s).settleCalled = false := by
      unfold swapProcess
      by_cases hpk : swapParseOk jd = false
      · rw [if_pos hpk]
        rfl
      · rw [if_neg hpk]
        cases hfind : st.find? (fun r => r.id = jd.swapId) with
        | none => rfl
        | some t =>
          dsimp only
          have htid : swapStatusOf st jd.swapId = some t.status := by
            unfold swapStatusOf
            rw [hfind]
            rfl
          cases hstat : t.status with
          | confirmed =>
            rw [if_pos rfl]
          | failed =>
            rw [if_neg (by decide : ¬(Status.failed = Status.confirmed))]
            rw [if_pos rfl]
            rfl
          | pending => exact absurd (htid.trans (by rw [hstat])) hp
    rw [hoff] at h
    exact absurd h (by decide)

/-! ## C3: terminal records absorb re-processing -/

/-- C3 (amended with the schema-validation hypothesis): when a
transaction or swap job whose payload passes the job schema validation
claims a record in a terminal status — if `confirmed`, `process`
returns success carrying the stored settlement hash (the stored value
whenever it is non-empty), performs no settlement, and leaves the store
untouched; if `failed`, it returns a failure whose error message ends
in "already marked as failed", performs no settlement, and the record
stays `failed`. -/
theorem worker_terminal_status_guards :
    (∀ (st : TxStore) (jd : TxJobData) (s : Except String String) (t : TxRecord),
      txParseOk jd = true →
      st.find? (fun r => r.id = jd.transactionId) = some t →
      (t.status = Status.confirmed →
        txProcess st jd s =
          { result := { success := true
                        txHash := some (hashOrDefault t.txHash "already_confirmed")
                        status := Status.confirmed, error := none }
            store := st
            settleCalled := false }
        ∧ (t.txHash ≠ "" → (txProcess st jd s).result.txHash = some t.txHash))
      ∧ (t.status = Status.failed →
        (txProcess st jd s).result.success = false
        ∧ (txProcess st jd s).result.error =
            some ("Transaction " ++ jd.transactionId ++ " already marked as failed")
        ∧ (txProcess st jd s).settleCalled = false
        ∧ txStatusOf (txProcess st jd s).store jd.transactionId = some Status.failed))
    ∧ (∀ (st : SwapStore) (jd : SwapJobData) (s : Except String (String × String))
        (t : SwapRecord),
      swapParseOk jd = true →
      st.find? (fun r => r.id = jd.swapId) = some t →
      (t.status = Status.confirmed →
        swapProcess st jd s =
          { result := { success := true
                        txHash := some (hashOrDefault t.txHash "already_confirmed")
                        status := Status.confirmed
                        amountOutReceived := some (hashOrDefault t.amountReceived "0")
                        actualSlippage := some 0, error := none }
            store := st
            settleCalled := false }
        ∧ (t.txHash ≠ "" → (swapProcess st jd s).result.txHash = some t.txHash))
      ∧ (t.status = Status.failed →
        (swapProcess st jd s).result.success = false
        ∧ (swapProcess st jd s).result.error =
            some ("Swap " ++ jd.swapId ++ " already marked as failed")
        ∧ (swapProcess st jd s).settleCalled = false
        ∧ swapStatusOf (swapProcess st jd s).store jd.swapId = some Status.failed)) := by
  constructor
  · intro st jd s t hp hfind
    have hne : ¬(txParseOk jd = false) := by simp [hp]
    have hst : txStatusOf st jd.transactionId = some t.status := by
      unfold txStatusOf
      rw [hfind]
      rfl
    constructor
    · intro hconf
      have hproc : txProcess st jd s =
          { result := { success := true
                        txHash := some (hashOrDefault t.txHash "already_confirmed")
                        status := Status.confirmed, error := none }
            store := st
            settleCalled := false } := by
        unfold txProcess
        rw [if_neg hne, hfind]
        dsimp only
        rw [hconf, if_pos rfl]
      refine ⟨hproc, fun hhash => ?_⟩
      rw [hproc]
      simp [hashOrDefault, hhash]
    · intro hfail
      have hproc : txProcess st jd s =
          txCatch st jd.transactionId false
            ("Transaction " ++ jd.transactionId ++ " already marked as failed") := by
        unfold txProcess
        rw [if_neg hne, hfind]
        dsimp only
        rw [hfail]
        rw [if_neg (by decide : ¬(Status.failed = Status.confirmed))]
        rw [if_pos rfl]
      refine ⟨by rw [hproc]; rfl, by rw [hproc]; rfl, by rw [hproc]; rfl, ?_⟩
      rw [hproc, txStatusOf_catch]
      split_ifs with h1 h2
      · rw [hst, hfail]
      · rw [hst, hfail]
        rfl
      · exact absurd rfl h2
  · intro st jd s t hp hfind
    have hne : ¬(swapParseOk jd = false) := by simp [hp]
    have hst : swapStatusOf st jd.swapId = some t.status := by
      unfold swapStatusOf
      rw [hfind]
      rfl
    constructor
    · intro hconf
      have hproc : swapProcess st jd s =
          { result := { success := true
                        txHash := some (hashOrDefault t.txHash "already_confirmed")
                        status := Status.confirmed
                        amountOutReceived := some (hashOrDefault t.amountReceived "0")
                        actualSlippage := some 0, error := none }
            store := st
            settleCalled := false } := by
        unfold swapProcess
        rw [if_neg hne, hfind]
        dsimp only
        rw [hconf, if_pos rfl]
      refine ⟨hproc, fun hhash => ?_⟩
      rw [hproc]
      simp [hashOrDefault, hhash]
    · intro hfail
      have hproc : swapProcess st jd s =
          swapCatch st jd.swapId false
            ("Swap " ++ jd.swapId ++ " already marked as failed") := by
        unfold swapProcess
        rw [if_neg hne, hfind]
        dsimp only
        rw [hfail]
        rw [if_neg (by decide : ¬(Status.failed = Status.confirmed))]
        rw [if_pos rfl]
      refine ⟨by rw [hproc]; rfl, by rw [hproc]; rfl, by rw [hproc]; rfl, ?_⟩
      rw [hproc, swapStatusOf_catch]
      split_ifs with h1 h2
      · rw [hst, hfail]
      · rw [hst, hfail]
        rfl
      · exact absurd rfl h2

/-- Witness for C3: a confirmed transaction record is returned as-is
(stored hash, no settlement, store unchanged); a failed swap record
yields a failure whose error names it as already failed and stays
`failed`. -/
theorem worker_terminal_status_guards_witness :
    (txProcess [⟨"cccccccc-cccc-cccc-cccc-cccccccccccc", Status.confirmed, "0xhash1"⟩]
        ⟨"12345678-1234-1234-1234-123456789abc", "cccccccc-cccc-cccc-cccc-cccccccccccc",
         "Base", "transfer", "0xa", "0xb", "ETH", "5", none⟩
        (Except.error "settlement must not run")).result.txHash = some "0xhash1"
    ∧ (swapProcess [⟨"dddddddd-dddd-dddd-dddd-dddddddddddd", Status.failed, "", ""⟩]
        ⟨"12345678-1234-1234-1234-123456789abc", "dddddddd-dddd-dddd-dddd-dddddddddddd",
         "Base", "USDC", "DAI", "10", "42", none, none, none⟩
        (Except.error "settlement must not run")).result.error =
        some ("Swap " ++ "dddddddd-dddd-dddd-dddd-dddddddddddd" ++ " already marked as failed")
    ∧ swapStatusOf (swapProcess [⟨"dddddddd-dddd-dddd-dddd-dddddddddddd", Status.failed, "", ""⟩]
        ⟨"12345678-1234-1234-1234-123456789abc", "dddddddd-dddd-dddd-dddd-dddddddddddd",
         "Base", "USDC", "DAI", "10", "42", none, none, none⟩
        (Except.error "settlement must not run")).store
        "dddddddd-dddd-dddd-dddd-dddddddddddd" = some Status.failed := by
  have htx := ((worker_terminal_status_guards.1
    [⟨"cccccccc-cccc-cccc-cccc-cccccccccccc", Status.confirmed, "0xhash1"⟩]
    ⟨"12345678-1234-1234-1234-123456789abc", "cccccccc-cccc-cccc-cccc-cccccccccccc",
     "Base", "transfer", "0xa", "0xb", "ETH", "5", none⟩
    (Except.error "settlement must not run")
    ⟨"cccccccc-cccc-cccc-cccc-cccccccccccc", Status.confirmed, "0xhash1"⟩
    (by decide) (by decide)).1 rfl).2 (by decide)
  have hsw := (worker_terminal_status_guards.2
    [⟨"dddddddd-dddd-dddd-dddd-dddddddddddd", Status.failed, "", ""⟩]
    ⟨"12345678-1234-1234-1234-123456789abc", "dddddddd-dddd-dddd-dddd-dddddddddddd",
     "Base", "USDC", "DAI", "10", "42", none, none, none⟩
    (Except.error "settlement must not run")
    ⟨"dddddddd-dddd-dddd-dddd-dddddddddddd", Status.failed, "", ""⟩
    (by decide) (by decide)).2 rfl
  exact ⟨htx, hsw.2.1, hsw.2.2.2⟩

/-- C3 counterexample: a swap job whose payload fails schema validation
(chain "Solana") but references a `confirmed` swap record makes
`process` return a failure and flips the record to `failed` — the claim
as stated (success result, record unmodified, for every job claiming a
confirmed record) is false on the code. -/
theorem swap_terminal_guard_bypassed_by_invalid_payload :
    swapStatusOf [⟨"eeeeeeee-eeee-eeee-eeee-eeeeeeeeeeee", Status.confirmed, "0xh", "42"⟩]
      "eeeeeeee-eeee-eeee-eeee-eeeeeeeeeeee" = some Status.confirmed
    ∧ swapParseOk ⟨"12345678-1234-1234-1234-123456789abc",
        "eeeeeeee-eeee-eeee-eeee-eeeeeeeeeeee", "Solana", "USDC", "DAI", "10", "42",
        none, none, none⟩ = false
    ∧ (swapProcess [⟨"eeeeeeee-eeee-eeee-eeee-eeeeeeeeeeee", Status.confirmed, "0xh", "42"⟩]
        ⟨"12345678-1234-1234-1234-123456789abc", "eeeeeeee-eeee-eeee-eeee-eeeeeeeeeeee",
         "Solana", "USDC", "DAI", "10", "42", none, none, none⟩
        (Except.ok ("0xn", "41"))).result.success = false
    ∧ swapStatusOf
        (swapProcess [⟨"eeeeeeee-eeee-eeee-eeee-eeeeeeeeeeee", Status.confirmed, "0xh", "42"⟩]
          ⟨"12345678-1234-1234-1234-123456789abc", "eeeeeeee-eeee-eeee-eeee-eeeeeeeeeeee",
           "Solana", "USDC", "DAI", "10", "42", none, none, none⟩
          (Except.ok ("0xn", "41"))).store
        "eeeeeeee-eeee-eeee-eeee-eeeeeeeeeeee" = some Status.failed := by
  exact ⟨by decide, by decide, by decide, by decide⟩

/-! ## C4: settlement failure is terminal -/

/-- C4: when the external settlement step throws while the claimed
transaction or swap record is `pending`, the worker's `catch` records
`failed` on the record and `process` returns a failure result carrying
the thrown message (it does not re-throw — `process` is total), and no
later invocation for the same record id ever reaches the settlement
step again. -/
theorem settlement_failure_terminal :
    (∀ (st : TxStore) (jd : TxJobData) (e : String) (t : TxRecord),
      txParseOk jd = true →
      st.find? (fun r => r.id = jd.transactionId) = some t →
      t.status = Status.pending →
      (txProcess st jd (Except.error e)).result =
        { success := false, txHash := none, status := Status.failed, error := some e }
      ∧ txStatusOf (txProcess st jd (Except.error e)).store jd.transactionId =
          some Status.failed
      ∧ (txProcess st jd (Except.error e)).settleCalled = true
      ∧ (∀ (jd2 : TxJobData) (s2 : Except String String),
          jd2.transactionId = jd.transactionId →
          (txProcess (txProcess st jd (Except.error e)).store jd2 s2).settleCalled = false))
    ∧ (∀ (st : SwapStore) (jd : SwapJobData) (e : String) (t : SwapRecord),
      swapParseOk jd = true →
      st.find? (fun r => r.id = jd.swapId) = some t →
      t.status = Status.pending →
      (jsNaNorNonpos (jsParseFloat jd.amountIn)
        || jsNaNorNonpos (jsParseFloat jd.amountOutExpected)) = false →
      (swapProcess st jd (Except.error e)).result =
        { success := false, txHash := none, status := Status.failed
          amountOutReceived := none, actualSlippage := none, error := some e }
      ∧ swapStatusOf (swapProcess st jd (Except.error e)).store jd.swapId =
          some Status.failed
      ∧ (swapProcess st jd (Except.error e)).settleCalled = true
      ∧ (∀ (jd2 : SwapJobData) (s2 : Except String (String × String)),
          jd2.swapId = jd.swapId →
          (swapProcess (swapProcess st jd (Except.error e)).store jd2 s2).settleCalled
            = false)) := by
  constructor
  · intro st jd e t hp hfind hpend
    have hne : ¬(txParseOk jd = false) := by simp [hp]
    have hst : txStatusOf st jd.transactionId = some t.status := by
      unfold txStatusOf
      rw [hfind]
      rfl
    have htidne : jd.transactionId ≠ "" := by
      have hs := hp
      simp only [txParseOk, Bool.and_eq_true] at hs
      exact isUuid_ne_empty hs.1.1.2
    have hproc : txProcess st jd (Except.error e) =
        txCatch st jd.transactionId true e := by
      unfold txProcess
      rw [if_neg hne, hfind]
      dsimp only
      rw [hpend]
      rw [if_neg (by decide : ¬(Status.pending = Status.confirmed))]
      rw [if_neg (by decide : ¬(Status.pending = Status.failed))]
    have hfailed : txStatusOf (txProcess st jd (Except.error e)).store jd.transactionId =
        some Status.failed := by
      rw [hproc, txStatusOf_catch]
      split_ifs with h1 h2
      · exact absurd h1 htidne
      · rw [hst, hpend]
        rfl
      · exact absurd rfl h2
    refine ⟨by rw [hproc]; rfl, hfailed, by rw [hproc]; rfl, ?_⟩
    intro jd2 s2 heq
    by_contra hsc
    rw [Bool.not_eq_false] at hsc
    have hpend2 := txProcess_settle_only_pending _ jd2 s2 hsc
    rw [heq, hfailed] at hpend2
    exact absurd hpend2 (by decide)
  · intro st jd e t hp hfind hpend hamt
    have hne : ¬(swapParseOk jd = false) := by simp [hp]
    have hst : swapStatusOf st jd.swapId = some t.status := by
      unfold swapStatusOf
      rw [hfind]
      rfl
    have htidne : jd.swapId ≠ "" := by
      have hs := hp
      simp only [swapParseOk, Bool.and_eq_true] at hs
      exact isUuid_ne_empty hs.1.2
    have hproc : swapProcess st jd (Except.error e) =
        swapCatch st jd.swapId true e := by
      unfold swapProcess
      rw [if_neg hne, hfind]
      dsimp only
      rw [hpend]
      rw [if_neg (by decide : ¬(Status.pending = Status.confirmed))]
      rw [if_neg (by decide : ¬(Status.pending = Status.failed))]
      rw [if_neg (by rw [hamt]; decide)]
    have hfailed : swapStatusOf (swapProcess st jd (Except.error e)).store jd.swapId =
        some Status.failed := by
      rw [hproc, swapStatusOf_catch]
      split_ifs with h1 h2
      · exact absurd h1 htidne
      · rw [hst, hpend]
        rfl
      · exact absurd rfl h2
    refine ⟨by rw [hproc]; rfl, hfailed, by rw [hproc]; rfl, ?_⟩
    intro jd2 s2 heq
    by_contra hsc
    rw [Bool.not_eq_false] at hsc
    have hpend2 := swapProcess_settle_only_pending _ jd2 s2 hsc
    rw [heq, hfailed] at hpend2
    exact absurd hpend2 (by decide)

/-- Witness for C4: a pending transfer whose settlement throws ends
`failed` with the thrown message, and a redelivery of the same job no
longer reaches settlement. -/
theorem settlement_failure_terminal_witness :
    (txProcess [⟨"ffffffff-ffff-ffff-ffff-ffffffffffff", Status.pending, ""⟩]
        ⟨"12345678-1234-1234-1234-123456789abc", "ffffffff-ffff-ffff-ffff-ffffffffffff",
         "Base", "transfer", "0xa", "0xb", "ETH", "5", none⟩
        (Except.error "bundler unreachable")).result =
      { success := false, txHash := none, status := Status.failed
        error := some "bundler unreachable" }
    ∧ txStatusOf (txProcess [⟨"ffffffff-ffff-ffff-ffff-ffffffffffff", Status.pending, ""⟩]
        ⟨"12345678-1234-1234-1234-123456789abc", "ffffffff-ffff-ffff-ffff-ffffffffffff",
         "Base", "transfer", "0xa", "0xb", "ETH", "5", none⟩
        (Except.error "bundler unreachable")).store
        "ffffffff-ffff-ffff-ffff-ffffffffffff" = some Status.failed
    ∧ (txProcess (txProcess [⟨"ffffffff-ffff-ffff-ffff-ffffffffffff", Status.pending, ""⟩]
        ⟨"12345678-1234-1234-1234-123456789abc", "ffffffff-ffff-ffff-ffff-ffffffffffff",
         "Base", "transfer", "0xa", "0xb", "ETH", "5", none⟩
        (Except.error "bundler unreachable")).store
        ⟨"12345678-1234-1234-1234-123456789abc", "ffffffff-ffff-ffff-ffff-ffffffffffff",
         "Base", "transfer", "0xa", "0xb", "ETH", "5", none⟩
        (Except.ok "0xretry")).settleCalled = false := by
  have h := settlement_failure_terminal.1
    [⟨"ffffffff-ffff-ffff-ffff-ffffffffffff", Status.pending, ""⟩]
    ⟨"12345678-1234-1234-1234-123456789abc", "ffffffff-ffff-ffff-ffff-ffffffffffff",
     "Base", "transfer", "0xa", "0xb", "ETH", "5", none⟩
    "bundler unreachable"
    ⟨"ffffffff-ffff-ffff-ffff-ffffffffffff", Status.pending, ""⟩
    (by decide) (by decide) rfl
  exact ⟨h.1, h.2.1, h.2.2.2 _ (Except.ok "0xretry") rfl⟩

/-! ## C6: primary-wallet uniqueness -/

theorem countP_id_le_one {l : List WalletRec}
    (hnd : (l.map WalletRec.id).Nodup) (wid : Nat) :
    l.countP (fun w => w.id == wid) ≤ 1 := by
  induction l with
  | nil => simp
  | cons w ws ih =>
    rw [List.map_cons, List.nodup_cons] at hnd
    rw [List.countP_cons]
    by_cases h : w.id = wid
    · have h0 : ws.countP (fun w => w.id == wid) = 0 := by
        rw [List.countP_eq_zero]
        intro w' hw'
        simp only [beq_iff_eq]
        intro heq
        exact hnd.1 (by rw [h, ← heq]; exact List.mem_map_of_mem _ hw')
      simp [h0, h]
    · simp only [beq_iff_eq, h]
      simpa using ih hnd.2

theorem provision_preserves (db : WalletDB) (u c a : String)
    (hwf : walletWF db) (hinv : walletInv db) :
    walletWF (applyWalletOp db (WalletOp.provision u c a))
    ∧ walletInv (applyWalletOp db (WalletOp.provision u c a)) := by
  unfold applyWalletOp
  dsimp only
  cases hfind : findPrimaryWallet db u c with
  | some w => exact ⟨hwf, hinv⟩
  | none =>
    dsimp only
    obtain ⟨hnd, hlt⟩ := hwf
    constructor
    · constructor
      · unfold createWallet
        dsimp only
        rw [List.map_append]
        refine List.Nodup.append hnd (List.nodup_singleton _) ?_
        intro x hx1 hx2
        simp only [List.map_cons, List.map_nil, List.mem_singleton] at hx2
        subst hx2
        obtain ⟨w, hw, hid⟩ := List.mem_map.mp hx1
        exact absurd hid (Nat.ne_of_lt (hlt w hw))
      · intro w hw
        unfold createWallet at hw
        dsimp only at hw
        rcases List.mem_append.mp hw with h | h
        · exact Nat.lt_succ_of_lt (hlt w h)
        · rw [List.mem_singleton.mp h]
          exact Nat.lt_succ_self _
    · intro uid chain
      unfold primaryCount createWallet
      dsimp only
      rw [List.countP_append]
      by_cases hu : u = uid
      · by_cases hc : c = chain
        · subst hu
          subst hc
          have h0 : db.wallets.countP
              (fun w => w.owner == u && w.chain == c && w.isPrimary) = 0 := by
            rw [List.countP_eq_zero]
            intro w hw
            have := List.find?_eq_none.mp hfind w hw
            simpa using this
          rw [h0]
          simp
        · have h1 : List.countP
              (fun w => w.owner == uid && w.chain == chain && w.isPrimary)
              ([⟨db.nextId, u, c, a, true⟩] : List WalletRec) = 0 := by
            simp [List.countP_cons, hc]
          rw [h1]
          simpa using hinv uid chain
      · have h1 : List.countP
            (fun w => w.owner == uid && w.chain == chain && w.isPrimary)
            ([⟨db.nextId, u, c, a, true⟩] : List WalletRec) = 0 := by
          simp [List.countP_cons, hu]
        rw [h1]
        simpa using hinv uid chain

theorem setPrimary_preserves (db : WalletDB) (wid : Nat) (uid : String)
    (hmatch : ∀ w ∈ db.wallets, w.id = wid → w.owner = uid)
    (hwf : walletWF db) (hinv : walletInv db) :
    walletWF (setPrimaryWallet db wid uid)
    ∧ walletInv (setPrimaryWallet db wid uid) := by
  obtain ⟨hnd, hlt⟩ := hwf
  have hids : ((setPrimaryWallet db wid uid).wallets.map WalletRec.id)
      = db.wallets.map WalletRec.id := by
    unfold setPrimaryWallet
    dsimp only
    rw [List.map_map, List.map_map]
    apply List.map_congr_left
    intro w _
    by_cases h1 : w.owner = uid <;> by_cases h2 : w.id = wid <;>
      simp [Function.comp, h1, h2]
  constructor
  · constructor
    · rw [hids]
      exact hnd
    · intro w hw
      unfold setPrimaryWallet at hw
      dsimp only at hw
      rw [List.map_map] at hw
      obtain ⟨w0, hw0, heq⟩ := List.mem_map.mp hw
      have hideq : w.id = w0.id := by
        rw [← heq]
        by_cases h1 : w0.owner = uid <;> by_cases h2 : w0.id = wid <;>
          simp [Function.comp, h1, h2]
      rw [hideq]
      exact hlt w0 hw0
  · intro u' c'
    unfold primaryCount setPrimaryWallet
    dsimp only
    rw [List.countP_map, List.countP_map]
    by_cases hu : u' = uid
    · subst hu
      refine le_trans (List.countP_mono_left ?_) (countP_id_le_one hnd wid)
      intro w hw hp
      simp only [Function.comp] at hp
      by_cases h2 : w.id = wid
      · simp [h2]
      · exfalso
        by_cases h1 : w.owner = u' <;> simp [h1, h2] at hp
    · refine le_trans (List.countP_mono_left ?_) (hinv u' c')
      intro w hw hp
      simp only [Function.comp] at hp
      by_cases h2 : w.id = wid
      · exfalso
        have howner : w.owner = uid := hmatch w hw h2
        by_cases h1 : w.owner = uid
        · simp [h1, h2] at hp
          exact hu hp.1.symm
        · exact h1 howner
      · by_cases h1 : w.owner = uid
        · exfalso
          simp [h1, h2] at hp
        · simpa [h1, h2] using hp

/-- C6 (amended): starting from a well-formed store satisfying the
invariant, after any sequence of provisioning job executions that do
not interleave and `setPrimaryWallet` calls whose target wallet belongs
to the stated user, every (user, chain) pair still has at most one
primary wallet. (The counterexample forces both restrictions: two
interleaved provisioning jobs for the same pair create two primary
records, and a `setPrimaryWallet` call naming another user's wallet
also breaks the invariant.) -/
theorem wallet_primary_unique_sequential (db : WalletDB) (ops : List WalletOp)
    (hsafe : safeOps db ops = true) (hwf : walletWF db) (hinv : walletInv db) :
    walletInv (runWalletOps db ops) := by
  induction ops generalizing db with
  | nil => exact hinv
  | cons op rest ih =>
    have hsafe' : opOwnerMatch db op = true ∧ safeOps (applyWalletOp db op) rest = true := by
      simpa [safeOps] using hsafe
    have hrun : runWalletOps db (op :: rest) = runWalletOps (applyWalletOp db op) rest := rfl
    rw [hrun]
    have hstep : walletWF (applyWalletOp db op) ∧ walletInv (applyWalletOp db op) := by
      cases op with
      | provision u c a => exact provision_preserves db u c a hwf hinv
      | setPrimary wid uid =>
        have hmatch : ∀ w ∈ db.wallets, w.id = wid → w.owner = uid := by
          intro w hw hid
          have := List.all_eq_true.mp hsafe'.1 w hw
          simpa [hid] using this
        exact setPrimary_preserves db wid uid hmatch hwf hinv
    exact ih _ hsafe'.2 hstep.1 hstep.2

/-- Witness for C6: an empty store, two provisioning runs for the same
pair (the second absorbed by the existence check) and an owner-matching
`setPrimaryWallet` call keep at most one primary per (user, chain). -/
theorem wallet_primary_unique_sequential_witness :
    walletInv (runWalletOps ⟨[], 0⟩
      [WalletOp.provision "u1" "Base" "0xaaa",
       WalletOp.provision "u1" "Base" "0xbbb",
       WalletOp.setPrimary 0 "u1"]) :=
  wallet_primary_unique_sequential ⟨[], 0⟩
    [WalletOp.provision "u1" "Base" "0xaaa",
     WalletOp.provision "u1" "Base" "0xbbb",
     WalletOp.setPrimary 0 "u1"]
    (by decide) ⟨by simp, fun w hw => absurd hw (by simp)⟩
    (fun uid chain => by simp [primaryCount])

/-- C6 counterexample: (a) two interleaved provisioning job executions
for the same (user, chain) — both existence checks run before either
insert — leave two `isPrimary` records for the pair; (b) a sequential
`setPrimaryWallet` call whose `walletId` belongs to a different user
(`setPrimaryWallet(w2.id, "A")` with `w2` owned by `"B"`) also leaves
two primary records for (B, Base). The claim as stated is false on the
code. -/
theorem wallet_primary_uniqueness_counterexample :
    primaryCount (runSched ⟨[], 0⟩
      [⟨"u1", "Base", "0xaaa", ProvPhase.ready⟩, ⟨"u1", "Base", "0xbbb", ProvPhase.ready⟩]
      [0, 1, 0, 1]).1 "u1" "Base" = 2
    ∧ primaryCount
      (setPrimaryWallet ⟨[⟨0, "B", "Base", "0x1", true⟩, ⟨1, "B", "Base", "0x2", false⟩], 2⟩
        1 "A") "B" "Base" = 2 := by
  exact ⟨by decide, by decide⟩

end Transpose
